import Mathlib

/-!
# include/configs/vip1970.h

The board header is a list of preprocessor directives.  It is embedded here as
that list (`vip1970_h`, one entry per directive, tagged with its line in the
header) together with the part of the C preprocessor the header exercises:
conditional groups, object-like and one-parameter function-like definitions,
stringification, `defined`, `==` and `||` in controlling expressions.  The
configuration constants are then read off the definition table that
processing leaves behind: strings by joining adjacent literals, numbers by
evaluating the expanded expression with the integer types of C on the SH4.
-/

namespace Vip1970

/-! ## Integer constants -/

/-- Value of one hexadecimal digit. -/
def hexDigit (c : Char) : Option Nat :=
  if '0' ≤ c ∧ c ≤ '9' then some (c.toNat - '0'.toNat)
  else if 'a' ≤ c ∧ c ≤ 'f' then some (c.toNat - 'a'.toNat + 10)
  else if 'A' ≤ c ∧ c ≤ 'F' then some (c.toNat - 'A'.toNat + 10)
  else none

/-- Value of one decimal digit. -/
def decDigit (c : Char) : Option Nat :=
  if '0' ≤ c ∧ c ≤ '9' then some (c.toNat - '0'.toNat) else none

/-- Value of one octal digit. -/
def octDigit (c : Char) : Option Nat :=
  if '0' ≤ c ∧ c ≤ '7' then some (c.toNat - '0'.toNat) else none

/-- Is the character part of an integer suffix (`u`, `l`, in either case). -/
def isSuffixChar (c : Char) : Bool :=
  c = 'u' ∨ c = 'U' ∨ c = 'l' ∨ c = 'L'

/-- Is the character the unsigned suffix. -/
def isU (c : Char) : Bool :=
  c = 'u' ∨ c = 'U'

/-- The leading digits in the given base: their value, and the characters after them. -/
def digitsVal (base : Nat) (digit : Char → Option Nat) : Nat → List Char → Nat × List Char
  | acc, [] => (acc, [])
  | acc, c :: cs =>
    match digit c with
    | some d => digitsVal base digit (acc * base + d) cs
    | none => (acc, c :: cs)

/-- The length part at the head of an integer suffix: is it `ll` / `LL`, and what
follows it (`l`, `L`, `ll`, `LL` or nothing is taken off). -/
def lengthPart : List Char → Bool × List Char
  | 'l' :: 'l' :: r => (true, r)
  | 'L' :: 'L' :: r => (true, r)
  | 'l' :: r => (false, r)
  | 'L' :: r => (false, r)
  | r => (false, r)

/-- An integer suffix: does it hold `u`, and does it hold `ll`.  The suffixes are
nothing, `u`, `l`, `ul`, `lu`, `ll`, `ull`, `llu`, with `u` and the length part in either
case; anything else is not a suffix. -/
def suffixOf (cs : List Char) : Option (Bool × Bool) :=
  if cs.all isSuffixChar then
    match cs with
    | [] => some (false, false)
    | c :: r =>
      if isU c then
        match lengthPart r with
        | (ll, []) => some (true, ll)
        | _ => none
      else
        match lengthPart (c :: r) with
        | (ll, []) => some (false, ll)
        | (ll, [d]) => if isU d then some (true, ll) else none
        | _ => none
  else none

/-- An integer constant as read: its base, its suffix and the value of its digits. -/
structure Const where
  /-- Hexadecimal or octal, as opposed to decimal. -/
  hex : Bool
  /-- The suffix holds `u`. -/
  unsignedSuffix : Bool
  /-- The suffix holds `ll`. -/
  longLong : Bool
  /-- The number the digits spell. -/
  digits : Nat
  deriving DecidableEq, Repr

/-- Digits and what follows them, taken as a constant if what follows is a suffix. -/
def mkConst (hex : Bool) (r : Nat × List Char) : Option Const :=
  (suffixOf r.2).map
    (fun sf => { hex := hex, unsignedSuffix := sf.1, longLong := sf.2, digits := r.1 })

/-- An integer constant from its spelling: `0x` or `0X` and hexadecimal digits, or `0`
and octal digits, or decimal digits not starting with `0`; then an optional suffix. -/
def parseConst (spelling : String) : Option Const :=
  match spelling.toList with
  | '0' :: 'x' :: d :: ds =>
    if (hexDigit d).isSome then mkConst true (digitsVal 16 hexDigit 0 (d :: ds)) else none
  | '0' :: 'X' :: d :: ds =>
    if (hexDigit d).isSome then mkConst true (digitsVal 16 hexDigit 0 (d :: ds)) else none
  | '0' :: ds => mkConst true (digitsVal 8 octDigit 0 ds)
  | d :: ds =>
    if (decDigit d).isSome then mkConst false (digitsVal 10 decDigit 0 (d :: ds)) else none
  | [] => none

/-- Width of the widest integer type, `unsigned long long` and `uintmax_t`. -/
def WIDEST : Nat := 2 ^ 64

/-- Value of a constant: a constant too large for the widest integer type is cut to the
width of that type (the compiler warns and goes on). -/
def Const.value (k : Const) : Nat := k.digits % WIDEST

/-- Value of an integer constant given by its spelling. -/
def numVal (spelling : String) : Option Nat :=
  (parseConst spelling).map Const.value

/-- An integer type of the SH4 by width and signedness: `int` and `long` are 32 bits
wide, `long long` is 64 bits wide. -/
structure CType where
  bits : Nat
  signed : Bool
  deriving DecidableEq, Repr

/-- Is the number a value of the type. -/
def CType.holds (t : CType) (v : Int) : Bool :=
  if t.signed then decide (-(2 ^ (t.bits - 1)) ≤ v ∧ v < 2 ^ (t.bits - 1))
  else decide (0 ≤ v ∧ v < 2 ^ t.bits)

/-- The value of the type that is congruent to the number modulo `2 ^ bits`: conversion
to an unsigned type, and the result the compiler folds an overflowing signed operation
to (with a warning). -/
def CType.wrap (t : CType) (v : Int) : Int :=
  if t.signed then (v + 2 ^ (t.bits - 1)) % 2 ^ t.bits - 2 ^ (t.bits - 1)
  else v % 2 ^ t.bits

/-- Type of a constant with the given base, suffix and value: the first type of its list
that holds the value.  With `u` the list is the unsigned types; hexadecimal and octal
constants alternate signed and unsigned types; decimal constants are signed.  The suffix
`ll` starts the list at 64 bits.  A decimal constant without `u` in `[2^31, 2^32)` or from
`2^63` on has a type that differs between the dialects of C (`unsigned long` in C90,
`long long` in C99) and is given none here. -/
def typeOf (hex unsignedSuffix longLong : Bool) (v : Nat) : Option CType :=
  if unsignedSuffix then
    if longLong then some ⟨64, false⟩
    else if v < 2 ^ 32 then some ⟨32, false⟩ else some ⟨64, false⟩
  else if longLong then
    if v < 2 ^ 63 then some ⟨64, true⟩
    else if hex then some ⟨64, false⟩ else none
  else if v < 2 ^ 31 then some ⟨32, true⟩
  else if hex then
    if v < 2 ^ 32 then some ⟨32, false⟩
    else if v < 2 ^ 63 then some ⟨64, true⟩
    else some ⟨64, false⟩
  else if 2 ^ 32 ≤ v ∧ v < 2 ^ 63 then some ⟨64, true⟩
  else none

/-- Type of a constant. -/
def Const.type (k : Const) : Option CType :=
  typeOf k.hex k.unsignedSuffix k.longLong k.value

/-- Type of an integer constant given by its spelling. -/
def litType (spelling : String) : Option CType :=
  (parseConst spelling).bind Const.type

/-- The usual arithmetic conversions: the common type of two operands.  Of two types of
one width the unsigned one wins; otherwise the wider one does. -/
def arith (a b : CType) : CType :=
  if a.bits = b.bits then ⟨a.bits, a.signed && b.signed⟩
  else if a.bits < b.bits then b else a

/-- A value with its type. -/
structure CVal where
  type : CType
  val : Int
  deriving DecidableEq, Repr

/-- Typed value of an integer constant given by its spelling. -/
def constVal (spelling : String) : Option CVal :=
  match numVal spelling, litType spelling with
  | some v, some t => some ⟨t, v⟩
  | _, _ => none

/-! ## Replacement lists and controlling expressions -/

/-- Shape of a replacement list or of a controlling expression. -/
inductive Expr where
  | empty
  | num (spelling : String)
  | ident (name : String)
  | str (value : String)
  | neg (e : Expr)
  | add (a b : Expr)
  | sub (a b : Expr)
  | shl (a b : Expr)
  | paren (e : Expr)
  | juxt (a b : Expr)
  | call (fn : String) (arg : Expr)
  | hash (param : String)
  | eq (a b : Expr)
  | lor (a b : Expr)
  | defined (name : String)
  | raw (text : String)
  deriving DecidableEq, Repr

/-- Adjacent pieces of a replacement list, in order. -/
def Expr.seq : List Expr → Expr
  | [] => .empty
  | [e] => e
  | e :: es => .juxt e (Expr.seq es)

/-- A definition: object-like, or function-like with one parameter. -/
inductive Def where
  | obj (body : Expr)
  | fn (param : String) (body : Expr)
  deriving DecidableEq, Repr

/-- Definition table, most recent definition first. -/
abbrev Defs := List (String × Def)

/-- Most recent definition of a name. -/
def lookupDef : Defs → String → Option Def
  | [], _ => none
  | (k, d) :: rest, n => if k = n then some d else lookupDef rest n

/-- Is the name currently defined. -/
def isDefined (t : Defs) (n : String) : Bool := (lookupDef t n).isSome

/-- Remove every definition of a name (`#undef`). -/
def undefine : Defs → String → Defs
  | [], _ => []
  | (k, d) :: rest, n => if k = n then undefine rest n else (k, d) :: undefine rest n

/-- Source spelling of an expression, as produced by the `#` operator. -/
def spell : Expr → String
  | .empty => ""
  | .num s => s
  | .ident n => n
  | .str v => "\"" ++ v ++ "\""
  | .neg e => "-" ++ spell e
  | .add a b => spell a ++ " + " ++ spell b
  | .sub a b => spell a ++ " - " ++ spell b
  | .shl a b => spell a ++ " << " ++ spell b
  | .paren e => "(" ++ spell e ++ ")"
  | .juxt a b => spell a ++ " " ++ spell b
  | .call f a => f ++ "(" ++ spell a ++ ")"
  | .hash p => "#" ++ p
  | .eq a b => spell a ++ " == " ++ spell b
  | .lor a b => spell a ++ " || " ++ spell b
  | .defined n => "defined(" ++ n ++ ")"
  | .raw t => t

/-- Substitute the argument for the parameter in the body of a function-like
definition: an operand of `#` receives the spelling of the argument as written, every
other occurrence receives the fully expanded argument. -/
def subst (p : String) (argRaw argExp : Expr) : Expr → Expr
  | .ident n => if n = p then argExp else .ident n
  | .hash q => if q = p then .str (spell argRaw) else .hash q
  | .neg e => .neg (subst p argRaw argExp e)
  | .add a b => .add (subst p argRaw argExp a) (subst p argRaw argExp b)
  | .sub a b => .sub (subst p argRaw argExp a) (subst p argRaw argExp b)
  | .shl a b => .shl (subst p argRaw argExp a) (subst p argRaw argExp b)
  | .paren e => .paren (subst p argRaw argExp e)
  | .juxt a b => .juxt (subst p argRaw argExp a) (subst p argRaw argExp b)
  | .call f a => .call f (subst p argRaw argExp a)
  | .eq a b => .eq (subst p argRaw argExp a) (subst p argRaw argExp b)
  | .lor a b => .lor (subst p argRaw argExp a) (subst p argRaw argExp b)
  | e => e

/-- Full expansion of an expression against a definition table.  `hide` holds the names
being replaced, which are not replaced again inside their own replacement. -/
def expand (t : Defs) : Nat → List String → Expr → Expr
  | 0, _, e => e
  | fuel + 1, hide, .ident n =>
    if n ∈ hide then .ident n
    else match lookupDef t n with
      | some (.obj body) => expand t fuel (n :: hide) body
      | _ => .ident n
  | fuel + 1, hide, .call f a =>
    if f ∈ hide then .call f (expand t fuel hide a)
    else match lookupDef t f with
      | some (.fn p body) => expand t fuel (f :: hide) (subst p a (expand t fuel hide a) body)
      | _ => .call f (expand t fuel hide a)
  | fuel + 1, hide, .neg e => .neg (expand t fuel hide e)
  | fuel + 1, hide, .add a b => .add (expand t fuel hide a) (expand t fuel hide b)
  | fuel + 1, hide, .sub a b => .sub (expand t fuel hide a) (expand t fuel hide b)
  | fuel + 1, hide, .shl a b => .shl (expand t fuel hide a) (expand t fuel hide b)
  | fuel + 1, hide, .paren e => .paren (expand t fuel hide e)
  | fuel + 1, hide, .juxt a b => .juxt (expand t fuel hide a) (expand t fuel hide b)
  | fuel + 1, hide, .eq a b => .eq (expand t fuel hide a) (expand t fuel hide b)
  | fuel + 1, hide, .lor a b => .lor (expand t fuel hide a) (expand t fuel hide b)
  | _ + 1, _, e => e

/-- Depth allowed to `expand`.  The deepest expansion in the header is that of
`CONFIG_EXTRA_ENV_SETTINGS`, nineteen adjacent pieces with `XSTR` applied to names whose
definitions chain at most twice; it stays well below this bound. -/
def expandFuel : Nat := 64

/-- Value of an expanded expression in C: the operands of `+` and `-` are converted to
their common type and the result is a value of that type (an unsigned result is reduced
modulo `2 ^ bits`); `<<` has the type of its left operand and a count from 0 up to the
width. -/
def evalC : Expr → Option CVal
  | .num s => constVal s
  | .neg e => (evalC e).map (fun x => ⟨x.type, x.type.wrap (-x.val)⟩)
  | .add a b =>
    match evalC a, evalC b with
    | some x, some y =>
      some ⟨arith x.type y.type,
        (arith x.type y.type).wrap
          ((arith x.type y.type).wrap x.val + (arith x.type y.type).wrap y.val)⟩
    | _, _ => none
  | .sub a b =>
    match evalC a, evalC b with
    | some x, some y =>
      some ⟨arith x.type y.type,
        (arith x.type y.type).wrap
          ((arith x.type y.type).wrap x.val - (arith x.type y.type).wrap y.val)⟩
    | _, _ => none
  | .shl a b =>
    match evalC a, evalC b with
    | some x, some y =>
      if 0 ≤ y.val ∧ y.val < x.type.bits then
        some ⟨x.type, x.type.wrap (x.val * 2 ^ y.val.toNat)⟩
      else none
    | _, _ => none
  | .paren e => evalC e
  | _ => none

/-- Value of a sequence of adjacent string literals. -/
def strVal : Expr → Option String
  | .str v => some v
  | .juxt a b =>
    match strVal a, strVal b with
    | some x, some y => some (x ++ y)
    | _, _ => none
  | _ => none

/-- Replace each `defined(NAME)` by `1` or `0`; this happens before expansion. -/
def resolveDefined (t : Defs) : Expr → Expr
  | .defined n => .num (if isDefined t n then "1" else "0")
  | .neg e => .neg (resolveDefined t e)
  | .add a b => .add (resolveDefined t a) (resolveDefined t b)
  | .sub a b => .sub (resolveDefined t a) (resolveDefined t b)
  | .shl a b => .shl (resolveDefined t a) (resolveDefined t b)
  | .paren e => .paren (resolveDefined t e)
  | .eq a b => .eq (resolveDefined t a) (resolveDefined t b)
  | .lor a b => .lor (resolveDefined t a) (resolveDefined t b)
  | e => e

/-- Value of an expanded controlling expression; an identifier left over is `0`.  The
preprocessor computes in its widest integer type: a constant is cut to 64 bits and a sum
is reduced modulo `2 ^ 64`.  The header only compares constants for equality and tests
`defined`, so the sign of a value plays no part. -/
def evalPP : Expr → Option Nat
  | .num s => numVal s
  | .ident _ => some 0
  | .paren e => evalPP e
  | .add a b =>
    match evalPP a, evalPP b with
    | some x, some y => some ((x + y) % WIDEST)
    | _, _ => none
  | .eq a b =>
    match evalPP a, evalPP b with
    | some x, some y => some (if x = y then 1 else 0)
    | _, _ => none
  | .lor a b =>
    match evalPP a, evalPP b with
    | some x, some y => some (if x ≠ 0 ∨ y ≠ 0 then 1 else 0)
    | _, _ => none
  | _ => none

/-- Value of the controlling expression of `#if` / `#elif`. -/
def evalIf (t : Defs) (e : Expr) : Option Nat :=
  evalPP (expand t expandFuel [] (resolveDefined t e))


/-! ## Directives and their processing -/

/-- One preprocessing directive of the header. -/
inductive Directive where
  | ifdefD (name : String)
  | ifndefD (name : String)
  | ifE (cond : Expr)
  | elifE (cond : Expr)
  | elseD
  | endif
  | define (name : String) (body : Expr)
  | defineFn (name : String) (param : String) (body : Expr)
  | undefD (name : String)
  | error (msg : String)
  | warning (msg : String)
  | includeD (file : String)
  deriving Repr

/-- An open conditional group. -/
structure Frame where
  /-- Line of the directive that opened the group. -/
  line : Nat
  /-- Was the enclosing text being processed when the group was opened. -/
  outer : Bool
  /-- Has one branch of the group been selected already. -/
  taken : Bool
  /-- Is the current branch being processed. -/
  active : Bool
  /-- Has `#else` been seen. -/
  seenElse : Bool
  deriving DecidableEq, Repr

/-- State of the preprocessor between two directives. -/
structure State where
  /-- Definitions in force. -/
  defs : Defs
  /-- Open conditional groups, innermost first. -/
  stack : List Frame
  /-- Errors reported so far, each with its line, oldest first. -/
  errors : List (Nat × String)
  /-- Warnings reported so far, oldest first. -/
  warnings : List (Nat × String)
  /-- Closed conditional groups: line of the opening directive, line of its `#endif`. -/
  closed : List (Nat × Nat)
  deriving Repr

/-- Is the text at this point being processed (not inside a skipped group). -/
def State.active (s : State) : Bool :=
  match s.stack with
  | [] => true
  | f :: _ => f.active

/-- Enter a definition.  The most recent definition of a name is the one in force: a
second `#define` of a name replaces the first (the compiler remarks on it and goes on). -/
def State.addDef (s : State) (name : String) (d : Def) : State :=
  { s with defs := (name, d) :: s.defs }

/-- Open a conditional group whose condition has the given truth value. -/
def State.openGroup (s : State) (line : Nat) (cond : Bool) : State :=
  let a := s.active && cond
  { s with stack := { line := line, outer := s.active, taken := a, active := a,
                      seenElse := false } :: s.stack }

/-- Truth value of a controlling expression, with the error reported when it has none. -/
def State.cond (s : State) (line : Nat) (e : Expr) : State × Bool :=
  match evalIf s.defs e with
  | some v => (s, v ≠ 0)
  | none => ({ s with errors := s.errors ++ [(line, "#if with no expression value")] }, false)

/-- Modelled from the spec: the contents of `config_cmd_default.h`, which the header
includes at line 102 and which is not part of these sources.  The header's own note at
line 247 states the one fact recorded here: it defines `CONFIG_CMD_FLASH`. -/
def config_cmd_default_h : List String := ["CONFIG_CMD_FLASH"]

/-- Effect of one directive, met at the given line. -/
def step (s : State) (line : Nat) : Directive → State
  | .ifdefD n => s.openGroup line (isDefined s.defs n)
  | .ifndefD n => s.openGroup line (!isDefined s.defs n)
  | .ifE e =>
    if s.active then
      let r := s.cond line e
      r.1.openGroup line r.2
    else s.openGroup line false
  | .elifE e =>
    match s.stack with
    | [] => { s with errors := s.errors ++ [(line, "#elif without #if")] }
    | f :: rest =>
      if f.seenElse then { s with errors := s.errors ++ [(line, "#elif after #else")] }
      else if f.outer && !f.taken then
        let r := State.cond { s with stack := rest } line e
        { r.1 with stack := { f with taken := r.2, active := r.2 } :: rest }
      else { s with stack := { f with active := false } :: rest }
  | .elseD =>
    match s.stack with
    | [] => { s with errors := s.errors ++ [(line, "#else without #if")] }
    | f :: rest =>
      if f.seenElse then { s with errors := s.errors ++ [(line, "#else after #else")] }
      else
        let a := f.outer && !f.taken
        { s with stack := { f with taken := f.taken || a, active := a, seenElse := true } :: rest }
  | .endif =>
    match s.stack with
    | [] => { s with errors := s.errors ++ [(line, "#endif without #if")] }
    | f :: rest => { s with stack := rest, closed := s.closed ++ [(f.line, line)] }
  | .define n body => if s.active then s.addDef n (.obj body) else s
  | .defineFn n p body => if s.active then s.addDef n (.fn p body) else s
  | .undefD n => if s.active then { s with defs := undefine s.defs n } else s
  | .error msg => if s.active then { s with errors := s.errors ++ [(line, "#error " ++ msg)] } else s
  | .warning msg =>
    if s.active then { s with warnings := s.warnings ++ [(line, "#warning " ++ msg)] } else s
  | .includeD _ =>
    if s.active then config_cmd_default_h.foldl (fun st n => st.addDef n (.obj .empty)) s
    else s

/-- Process the directives of a file in order. -/
def processAll : State → List (Nat × Directive) → State
  | s, [] => s
  | s, (line, d) :: rest => processAll (step s line d) rest

/-- At the end of the file every conditional group still open is an error
(`unterminated #if`), reported at the line that opened it. -/
def finish (s : State) : State :=
  { s with errors := s.errors ++ s.stack.reverse.map (fun f => (f.line, "unterminated conditional")),
           stack := [] }


/-! ## The header -/

/-- What the build, or an edit of the lines the header offers for editing, decides. -/
structure Config where
  /-- Is `CONFIG_SH_SE_MODE` defined by the build before the header is read. -/
  se_mode : Bool
  /-- Value of `INPUT_CLOCK_RATE` when the build supplies one. -/
  clock : Option String
  /-- Is line 161 (`#define CONFIG_SH_STB7100_USB`) in force; it is commented out as shipped. -/
  usb : Bool
  /-- Is line 181 (`#define CONFIG_SH_STB7100_IDE`) in force; it is commented out as shipped. -/
  ide : Bool
  /-- Is line 182 (`#define CONFIG_SH_STB7100_SATA`) in force; it is as shipped. -/
  sata : Bool
  /-- The integer constant on line 60 (`CFG_MONITOR_LEN`), as spelled. -/
  monitor_len : String
  /-- The integer constant on lines 48 and 54 (`CFG_FLASH_BASE`), as spelled. -/
  flash_base : String
  deriving Repr

/-- The header as shipped, for a given addressing mode and clock setting. -/
def shipped (se_mode : Bool) (clock : Option String) : Config :=
  { se_mode := se_mode, clock := clock, usb := false, ide := false, sata := true,
    monitor_len := "0x00020000", flash_base := "0xA0000000" }

/-- Lines 85-96: the replacement list of `CONFIG_EXTRA_ENV_SETTINGS`. -/
def CONFIG_EXTRA_ENV_SETTINGS_body : Expr :=
  Expr.seq [
    .str "board=", .call "XSTR" (.ident "BOARD"), .str "_",
      .call "XSTR" (.ident "INPUT_CLOCK_RATE"), .str "\x00",
    .str "monitor_base=", .call "XSTR" (.ident "CFG_MONITOR_BASE"), .str "\x00",
    .str "monitor_len=", .call "XSTR" (.ident "CFG_MONITOR_LEN"), .str "\x00",
    .str "monitor_sec=", .ident "MONITOR_SECTORS", .str "\x00",
    .str "load_addr=", .call "XSTR" (.ident "CFG_LOAD_ADDR"), .str "\x00",
    .str "unprot=",
      .str "protect off $monitor_sec\x00",
    .str "update=",
      .str "erase $monitor_sec;",
      .str "cp.b $load_addr $monitor_base $monitor_len;",
      .str "protect on $monitor_sec\x00" ]

/-- Lines 270-275: the replacement list of `MTDPARTS_NOR`. -/
def MTDPARTS_NOR_body : Expr :=
  Expr.seq [
    .str "physmap-flash:",
      .str "256k(U-Boot)",
      .str ",128k(Environment)",
      .str ",4M(Kernel)",
      .str ",-(RestOfNor0)" ]

/-- Lines 292-297: the replacement list of `MTDPARTS_NAND`. -/
def MTDPARTS_NAND_body : Expr :=
  Expr.seq [
    .str "gen_nand.1:",
      .str "128k(env-nand0)",
      .str ",4M(kernel-nand0)",
      .str ",32M(root-nand0)",
      .str ",-(RestOfNand0)" ]

/-- Lines 25-96 of the header. -/
def vip1970_h_top (c : Config) : List (Nat × Directive) :=
  [ (25, .ifndefD "__CONFIG_H"),
    (26, .define "__CONFIG_H" .empty),
    (33, .define "CONFIG_SH4" (.num "1")),
    (34, .define "CONFIG_CPU_SUBTYPE_SH4_2XX" .empty),
    (36, .ifndefD "INPUT_CLOCK_RATE"),
    (37, .warning "Assuming 30MHz clock input"),
    (38, .define "INPUT_CLOCK_RATE" (.num "30")),
    (39, .endif),
    (47, .ifdefD "CONFIG_SH_SE_MODE"),
    (48, .define "CFG_FLASH_BASE" (.num c.flash_base)),
    (49, .define "CFG_SDRAM_BASE" (.num "0x80000000")),
    (50, .define "CFG_SE_PHYSICAL_BASE" (.num "0x40000000")),
    (51, .define "CFG_SE_UNACHED_BASE" (.num "0x90000000")),
    (52, .define "CFG_SE_SDRAM_WINDOW" (.paren (.sub (.ident "CFG_SDRAM_SIZE") (.num "1")))),
    (53, .elseD),
    (54, .define "CFG_FLASH_BASE" (.num c.flash_base)),
    (55, .define "CFG_SDRAM_BASE" (.num "0x84000000")),
    (56, .endif),
    (58, .define "CFG_SDRAM_SIZE" (.num "0x04000000")),
    (60, .define "CFG_MONITOR_LEN" (.num c.monitor_len)),
    (61, .define "CFG_MONITOR_BASE" (.ident "CFG_FLASH_BASE")),
    (62, .define "CFG_MALLOC_LEN" (.paren (.shl (.num "1") (.num "20")))),
    (63, .define "CFG_BOOTPARAMS_LEN" (.paren (.shl (.num "128") (.num "10")))),
    (64, .define "CFG_GBL_DATA_SIZE" (.num "1024")),
    (66, .define "CFG_MEMTEST_START" (.ident "CFG_SDRAM_BASE")),
    (67, .define "CFG_MEMTEST_END"
           (.paren (.sub (.add (.ident "CFG_SDRAM_BASE") (.ident "CFG_SDRAM_SIZE"))
                         (.paren (.shl (.num "3") (.num "20")))))),
    (69, .define "CONFIG_BAUDRATE" (.num "115200")),
    (70, .define "CFG_BAUDRATE_TABLE" (.raw "\x7b 9600, 19200, 38400, 57600, 115200 \x7d")),
    (72, .defineFn "XSTR" "s" (.call "STR" (.ident "s"))),
    (73, .defineFn "STR" "s" (.hash "s")),
    (75, .define "BOARD" (.ident "vip1970")),
    (77, .ifE (.eq (.ident "CFG_MONITOR_LEN") (.num "0x00020000"))),
    (78, .define "MONITOR_SECTORS" (.str "1:0")),
    (79, .elifE (.eq (.ident "CFG_MONITOR_LEN") (.num "0x00040000"))),
    (80, .define "MONITOR_SECTORS" (.str "1:0-1")),
    (81, .elseD),
    (82, .error "\"Unable to determine sectors for monitor\""),
    (83, .endif),
    (85, .define "CONFIG_EXTRA_ENV_SETTINGS" CONFIG_EXTRA_ENV_SETTINGS_body) ]

/-- Lines 102-153 of the header: commands, serial console, Ethernet. -/
def vip1970_h_console : List (Nat × Directive) :=
  [ (102, .includeD "config_cmd_default.h"),
    (104, .define "CONFIG_CMD_ASKENV" .empty),
    (105, .define "CONFIG_CMD_NFS" .empty),
    (106, .define "CONFIG_CMD_PING" .empty),
    (107, .define "CONFIG_CMD_DHCP" .empty),
    (108, .define "CONFIG_CMD_IDE" .empty),
    (120, .ifE (.num "1")),
    (121, .define "CONFIG_STM_ASC_SERIAL" .empty),
    (122, .elseD),
    (123, .define "CONFIG_STM_DTF_SERIAL" .empty),
    (124, .endif),
    (128, .ifE (.num "1")),
    (129, .define "CFG_STM_ASC_BASE" (.num "0xb8031000ul")),
    (130, .ifE (.num "2")),
    (131, .define "CFG_STM_ASC_BASE" (.num "0xb8032000ul")),
    (132, .elseD),
    (133, .define "CFG_STM_ASC_BASE" (.num "0xb8033000ul")),
    (134, .endif),
    (143, .define "CONFIG_DRIVER_NETSTMAC" .empty),
    (144, .define "CFG_STM_STMAC_BASE" (.num "0xb8110000ul")),
    (145, .define "CONFIG_STMAC_LAN8700" .empty),
    (146, .define "CONFIG_CMD_MII" .empty),
    (153, .define "CONFIG_ENV_OVERWRITE" .empty) ]


/-- Lines 161-219 of the header: USB, IDE and SATA. -/
def vip1970_h_storage (c : Config) : List (Nat × Directive) :=
  (if c.usb then [(161, .define "CONFIG_SH_STB7100_USB" .empty)] else []) ++
  [ (163, .ifdefD "CONFIG_SH_STB7100_USB"),
    (164, .define "CONFIG_CMD_USB" .empty),
    (165, .define "CONFIG_CMD_FAT" .empty),
    (166, .define "CONFIG_USB_OHCI_NEW" .empty),
    (167, .define "CONFIG_USB_STORAGE" .empty),
    (168, .define "CFG_USB_OHCI_CPU_INIT" .empty),
    (169, .define "CFG_USB_BASE" (.num "0xb9100000")),
    (170, .define "CFG_USB_OHCI_REGS_BASE" (.paren (.add (.ident "CFG_USB_BASE") (.num "0xffc00")))),
    (171, .define "CFG_USB_OHCI_SLOT_NAME" (.str "ohci")),
    (172, .define "CFG_USB_OHCI_MAX_ROOT_PORTS" (.num "1")),
    (173, .define "LITTLEENDIAN" .empty),
    (174, .endif) ] ++
  (if c.ide then [(181, .define "CONFIG_SH_STB7100_IDE" .empty)] else []) ++
  (if c.sata then [(182, .define "CONFIG_SH_STB7100_SATA" .empty)] else []) ++
  [ (184, .ifdefD "CONFIG_SH_STB7100_IDE"),
    (185, .define "CFG_PIO_MODE" (.num "4")),
    (186, .define "CFG_IDE_MAXBUS" (.num "1")),
    (187, .define "CFG_IDE_MAXDEVICE" (.num "1")),
    (188, .ifdefD "CONFIG_SH_SE_MODE"),
    (189, .define "CFG_ATA_BASE_ADDR" (.num "0xB2800000")),
    (190, .elseD),
    (191, .define "CFG_ATA_BASE_ADDR" (.num "0xA2800000")),
    (192, .endif),
    (193, .define "CFG_ATA_IDE0_OFFSET" (.num "0x00200000")),
    (194, .define "CFG_ATA_REG_OFFSET" (.num "0")),
    (195, .define "CFG_ATA_DATA_OFFSET" (.num "0")),
    (196, .define "CFG_ATA_STRIDE" (.num "0x00020000")),
    (197, .define "CFG_ATA_ALT_OFFSET" (.neg (.num "0x0100000"))),
    (198, .endif),
    (200, .ifdefD "CONFIG_SH_STB7100_SATA"),
    (201, .define "CFG_PIO_MODE" (.num "4")),
    (202, .define "CFG_IDE_MAXBUS" (.num "1")),
    (203, .define "CFG_IDE_MAXDEVICE" (.num "1")),
    (204, .define "CFG_ATA_BASE_ADDR" (.num "0xB9209800")),
    (205, .define "CFG_ATA_IDE0_OFFSET" (.num "0x0")),
    (206, .define "CFG_ATA_REG_OFFSET" (.num "0x0")),
    (207, .define "CFG_ATA_DATA_OFFSET" (.num "0x0")),
    (208, .define "CFG_ATA_STRIDE" (.num "0x4")),
    (209, .define "CFG_ATA_ALT_OFFSET" (.num "0x8")),
    (210, .endif),
    (212, .ifE (.lor (.lor (.defined "CONFIG_SH_STB7100_IDE")
                           (.defined "CONFIG_SH_STB7100_SATA"))
                     (.defined "CONFIG_SH_STB7100_USB"))),
    (215, .define "CFG_64BIT_LBA" .empty),
    (216, .define "CONFIG_LBA48" .empty),
    (217, .define "CONFIG_DOS_PARTITION" .empty),
    (218, .define "CONFIG_CMD_EXT2" .empty),
    (219, .endif) ]

/-- Lines 225-358 of the header: shell limits, flash organisation, environment. -/
def vip1970_h_flash : List (Nat × Directive) :=
  [ (225, .define "CFG_HUSH_PARSER" (.num "1")),
    (226, .define "CFG_LONGHELP" (.num "1")),
    (227, .define "CFG_PROMPT" (.str "VIP1970 # ")),
    (228, .define "CFG_PROMPT_HUSH_PS2" (.str "> ")),
    (229, .define "CFG_CBSIZE" (.num "1024")),
    (230, .define "CFG_PBSIZE" (.raw "(CFG_CBSIZE+sizeof(CFG_PROMPT)+16)")),
    (231, .define "CFG_MAXARGS" (.num "16")),
    (232, .define "CFG_HZ" (.num "1000")),
    (233, .define "CFG_LOAD_ADDR" (.ident "CFG_SDRAM_BASE")),
    (234, .define "CONFIG_BOOTDELAY" (.num "1")),
    (235, .define "CONFIG_ZERO_BOOTDELAY_CHECK" .empty),
    (237, .define "CONFIG_CMDLINE_EDITING" .empty),
    (238, .define "CONFIG_AUTO_COMPLETE" (.num "1")),
    (249, .undefD "CONFIG_CMD_FLASH"),
    (250, .define "CONFIG_CMD_FLASH" .empty),
    (251, .define "CONFIG_CMD_NAND" .empty),
    (252, .define "CONFIG_SPI_FLASH" .empty),
    (262, .ifdefD "CONFIG_CMD_FLASH"),
    (263, .define "CFG_FLASH_CFI_DRIVER" .empty),
    (264, .define "CFG_FLASH_CFI" .empty),
    (265, .define "CONFIG_FLASH_PROTECT_SINGLE_CELL" .empty),
    (266, .define "CFG_FLASH_PROTECTION" (.num "1")),
    (267, .define "CFG_MAX_FLASH_BANKS" (.num "1")),
    (268, .define "CFG_MAX_FLASH_SECT" (.num "1024")),
    (269, .define "CFG_FLASH_EMPTY_INFO" .empty),
    (270, .define "MTDPARTS_NOR" MTDPARTS_NOR_body),
    (276, .define "MTDIDS_NOR" (.str "nor0=physmap-flash")),
    (278, .elseD),
    (279, .undefD "CONFIG_CMD_IMLS"),
    (280, .define "CFG_NO_FLASH" .empty),
    (281, .endif),
    (287, .ifdefD "CONFIG_CMD_NAND"),
    (288, .define "CFG_MAX_NAND_DEVICE" (.num "1")),
    (289, .define "NAND_MAX_CHIPS" (.ident "CFG_MAX_NAND_DEVICE")),
    (290, .define "CFG_NAND0_BASE" (.ident "CFG_EMI_NAND_BASE")),
    (291, .define "CFG_NAND_BASE_LIST" (.raw "\x7b CFG_NAND0_BASE \x7d")),
    (292, .define "MTDPARTS_NAND" MTDPARTS_NAND_body),
    (298, .define "MTDIDS_NAND" (.str "nand0=gen_nand.1")),
    (310, .undefD "CFG_NAND_FLEX_MODE"),
    (320, .define "CFG_NAND_ENV_OFFSET" (.paren (.add (.ident "CFG_MONITOR_LEN") (.num "0x0")))),
    (321, .endif),
    (334, .ifE (.defined "CONFIG_SPI_FLASH")),
    (335, .define "CONFIG_SPI_FLASH_ST" .empty),
    (336, .define "CONFIG_SPI" .empty),
    (337, .define "CONFIG_CMD_EEPROM" .empty),
    (338, .define "CFG_I2C_FRAM" .empty),
    (339, .undefD "CFG_EEPROM_PAGE_WRITE_DELAY_MS"),
    (342, .define "CONFIG_STM_FSM_SPI" .empty),
    (343, .define "CFG_STM_SPI_FSM_BASE" (.num "0xfe902000")),
    (344, .define "CFG_STM_SPI_CLOCKDIV" (.num "2")),
    (345, .undefD "CONFIG_CMD_SPI"),
    (346, .endif),
    (352, .define "CFG_ENV_IS_IN_FLASH" (.num "1")),
    (353, .define "CFG_ENV_OFFSET" (.ident "CFG_MONITOR_LEN")),
    (354, .define "CFG_ENV_ADDR" (.paren (.add (.ident "CFG_FLASH_BASE") (.ident "CFG_ENV_OFFSET")))),
    (355, .define "CFG_ENV_SIZE" (.num "0x10000")),
    (356, .define "CFG_ENV_SECT_SIZE" (.num "0x20000")),
    (358, .endif) ]

/-- The whole header, `#ifndef __CONFIG_H` (line 25) to the last line (358). -/
def vip1970_h (c : Config) : List (Nat × Directive) :=
  vip1970_h_top c ++ vip1970_h_console ++ vip1970_h_storage c ++ vip1970_h_flash

/-- Definitions the build makes before the header is read. -/
def buildDefs (c : Config) : Defs :=
  (if c.se_mode then [("CONFIG_SH_SE_MODE", Def.obj (.num "1"))] else []) ++
  (match c.clock with
   | some r => [("INPUT_CLOCK_RATE", Def.obj (.num r))]
   | none => [])

/-- State in which the header is entered. -/
def start (c : Config) : State :=
  { defs := buildDefs c, stack := [], errors := [], warnings := [], closed := [] }

/-- State in which the header is left, before the end-of-file check. -/
def scanned (c : Config) : State := processAll (start c) (vip1970_h c)

/-- Outcome of processing the header to its end. -/
def outcome (c : Config) : State := finish (scanned c)

/-- Does preprocessing the header succeed: no error is reported. -/
def buildOk (c : Config) : Bool := (outcome c).errors.isEmpty

/-- Fully expanded replacement of a name after the header has been read. -/
def expansion (c : Config) (name : String) : Expr :=
  expand (outcome c).defs expandFuel [] (.ident name)

/-- Is the name defined after the header has been read. -/
def defined (c : Config) (name : String) : Bool := isDefined (outcome c).defs name

/-- Typed value of a configuration constant. -/
def typedValueOf (c : Config) (name : String) : Option CVal :=
  if defined c name then evalC (expansion c name) else none

/-- Numeric value of a configuration constant. -/
def valueOf (c : Config) (name : String) : Option Int :=
  (typedValueOf c name).map CVal.val

/-- String value of a configuration constant. -/
def stringOf (c : Config) (name : String) : Option String :=
  if defined c name then strVal (expansion c name) else none


/-! ## The configuration constants, by name -/

/-- Line 77-83: the sector range of the monitor. -/
def MONITOR_SECTORS (c : Config) : Option String := stringOf c "MONITOR_SECTORS"

/-- Line 85-96: the default environment. -/
def CONFIG_EXTRA_ENV_SETTINGS (c : Config) : Option String :=
  stringOf c "CONFIG_EXTRA_ENV_SETTINGS"

/-- Lines 48, 54: base address of the flash. -/
def CFG_FLASH_BASE (c : Config) : Option Int := valueOf c "CFG_FLASH_BASE"

/-- Line 60: length of the monitor region. -/
def CFG_MONITOR_LEN (c : Config) : Option Int := valueOf c "CFG_MONITOR_LEN"

/-- Line 61: base address of the monitor region. -/
def CFG_MONITOR_BASE (c : Config) : Option Int := valueOf c "CFG_MONITOR_BASE"

/-- Line 233: default load address. -/
def CFG_LOAD_ADDR (c : Config) : Option Int := valueOf c "CFG_LOAD_ADDR"

/-- Line 353: offset of the environment in the flash. -/
def CFG_ENV_OFFSET (c : Config) : Option Int := valueOf c "CFG_ENV_OFFSET"

/-- Line 354: address of the environment. -/
def CFG_ENV_ADDR (c : Config) : Option Int := valueOf c "CFG_ENV_ADDR"

/-- Line 355: size of the environment. -/
def CFG_ENV_SIZE (c : Config) : Option Int := valueOf c "CFG_ENV_SIZE"

/-- Line 356: size of the flash sector that holds the environment. -/
def CFG_ENV_SECT_SIZE (c : Config) : Option Int := valueOf c "CFG_ENV_SECT_SIZE"

/-- Lines 189, 191, 204: base address of the ATA registers. -/
def CFG_ATA_BASE_ADDR (c : Config) : Option Int := valueOf c "CFG_ATA_BASE_ADDR"

/-- Lines 193, 205. -/
def CFG_ATA_IDE0_OFFSET (c : Config) : Option Int := valueOf c "CFG_ATA_IDE0_OFFSET"

/-- Lines 194, 206. -/
def CFG_ATA_REG_OFFSET (c : Config) : Option Int := valueOf c "CFG_ATA_REG_OFFSET"

/-- Lines 195, 207. -/
def CFG_ATA_DATA_OFFSET (c : Config) : Option Int := valueOf c "CFG_ATA_DATA_OFFSET"

/-- Lines 196, 208. -/
def CFG_ATA_STRIDE (c : Config) : Option Int := valueOf c "CFG_ATA_STRIDE"

/-- Lines 197, 209. -/
def CFG_ATA_ALT_OFFSET (c : Config) : Option Int := valueOf c "CFG_ATA_ALT_OFFSET"

/-- Line 270-275: the NOR partition table. -/
def MTDPARTS_NOR (c : Config) : Option String := stringOf c "MTDPARTS_NOR"

/-- The note at lines 258-261 of the header: fourteen address lines reach the NOR flash,
so 16 KiB of it are addressable. -/
def NOR_ADDRESSABLE : Nat := 16 * 1024

/-! ## Partition tables and sector ranges -/

/-- One entry of a partition table; `size = none` is the remainder `-`. -/
structure Partition where
  size : Option Nat
  name : String
  deriving DecidableEq, Repr

/-- Pieces of a character list between occurrences of a separator. -/
def splitAt (sep : Char) : List Char → List (List Char)
  | [] => [[]]
  | c :: cs =>
    if c = sep then [] :: splitAt sep cs
    else match splitAt sep cs with
      | [] => [[c]]
      | p :: ps => (c :: p) :: ps

/-- Decimal value of a non-empty list of digits. -/
def decimal (cs : List Char) : Option Nat :=
  if cs = [] then none
  else match digitsVal 10 decDigit 0 cs with
    | (v, []) => some v
    | _ => none

/-- Modelled from the spec: the size field of a partition, a decimal number followed by
`k` (KiB) or `M` (MiB) or nothing, or `-` for what is left of the device.  The reader of
these tables is not part of the sources. -/
def partSize (cs : List Char) : Option (Option Nat) :=
  if cs = ['-'] then some none
  else match cs.reverse with
    | 'k' :: ds => (decimal ds.reverse).map (fun n => some (n * 1024))
    | 'M' :: ds => (decimal ds.reverse).map (fun n => some (n * 1024 * 1024))
    | _ => (decimal cs).map some

/-- Modelled from the spec: one partition, `size(name)`. -/
def parsePartition (cs : List Char) : Option Partition :=
  match cs.span (· ≠ '(') with
  | (sz, '(' :: rest) =>
    match rest.span (· ≠ ')') with
    | (nm, [')']) => (partSize sz).map (fun s => { size := s, name := String.mk nm })
    | _ => none
  | _ => none

/-- Modelled from the spec: a partition table `device:part,part,...`, read as the device
name and its partitions in order. -/
def parseMtdparts (s : String) : Option (String × List Partition) :=
  match s.toList.span (· ≠ ':') with
  | (dev, ':' :: rest) => ((splitAt ',' rest).mapM parsePartition).map (fun ps => (String.mk dev, ps))
  | _ => none

/-- Partitions with their start offsets: each starts where the one before it ends; a
partition after the remainder has no offset and is dropped. -/
def layout : Nat → List Partition → List (String × Nat × Option Nat)
  | _, [] => []
  | off, p :: ps =>
    (p.name, off, p.size) ::
      (match p.size with
       | some n => layout (off + n) ps
       | none => [])

/-- Sum of the sizes of the partitions of fixed size. -/
def fixedTotal (ps : List Partition) : Nat :=
  (ps.filterMap (·.size)).sum

/-- Does the byte range `[lo, lo + len)` lie inside the named partition. -/
def insidePartition (ps : List Partition) (name : String) (lo len : Nat) : Bool :=
  match (layout 0 ps).find? (fun e => e.1 = name) with
  | some (_, off, some n) => off ≤ lo ∧ lo + len ≤ off + n
  | some (_, off, none) => off ≤ lo
  | none => false

/-- Modelled from the spec: a sector range `bank:first` or `bank:first-last` as given to
the `erase` and `protect` commands, read as the bank and the sectors it names.  The
commands themselves are not part of the sources. -/
def parseSectors (s : String) : Option (Nat × List Nat) :=
  match splitAt ':' s.toList with
  | [bank, range] =>
    match splitAt '-' range with
    | [first] =>
      match decimal bank, decimal first with
      | some b, some f => some (b, [f])
      | _, _ => none
    | [first, last] =>
      match decimal bank, decimal first, decimal last with
      | some b, some f, some l => if f ≤ l then some (b, (List.range (l + 1)).drop f) else none
      | _, _, _ => none
    | _ => none
  | _ => none

/-- The character that ends each entry of the default environment. -/
def NUL : String := "\x00"

/-- Entries, each followed by its terminator, one after the other. -/
def envBlock : List String → String
  | [] => ""
  | e :: es => e ++ NUL ++ envBlock es


/-- Modelled from the spec: the variables of a default environment, read off its entries
`name=value`, each ended by a NUL, up to the first empty entry.  The environment store is
not part of the sources. -/
def envEntries (env : String) : List (String × String) :=
  ((splitAt '\x00' env.toList).takeWhile (fun e => !e.isEmpty)).map
    (fun e => (String.mk (e.takeWhile (· ≠ '=')), String.mk ((e.dropWhile (· ≠ '=')).drop 1)))

/-- Modelled from the spec: value of a variable of a default environment, that of the
first entry with the name. -/
def getenv (env name : String) : Option String :=
  ((envEntries env).find? (fun e => e.1 = name)).map (·.2)

/-- Modelled from the spec: a word of a command; a word `$name` stands for the value of
the variable `name`, or for nothing if there is no such variable (line 225 selects the
shell that does this).  The command shell is not part of the sources. -/
def substitute (env word : String) : String :=
  match word.toList with
  | '$' :: name => (getenv env (String.mk name)).getD ""
  | _ => word

/-- Modelled from the spec: the commands of a script, separated by `;`, each as its
words, separated by blanks. -/
def scriptWords (script : String) : List (List String) :=
  (splitAt ';' script.toList).map
    (fun cmd => ((splitAt ' ' cmd).filter (fun w => !w.isEmpty)).map String.mk)

/-- Modelled from the spec: the commands a script runs, the variables in their words
replaced. -/
def scriptCommands (env script : String) : List (List String) :=
  (scriptWords script).map (fun cmd => cmd.map (substitute env))

/-- Modelled from the spec: the sector ranges a command erases: `erase range` erases the
sectors the range names, any other command erases none. -/
def erases (cmd : List String) : List (Nat × List Nat) :=
  match cmd with
  | ["erase", r] => (parseSectors r).toList
  | _ => []

/-- Modelled from the spec: the sector ranges a command write-protects:
`protect on range` protects the sectors the range names. -/
def protects (cmd : List String) : List (Nat × List Nat) :=
  match cmd with
  | ["protect", "on", r] => (parseSectors r).toList
  | _ => []

/-- The commands that running the variable `update` of the default environment
(lines 93-96) runs. -/
def updateCommands (c : Config) : Option (List (List String)) :=
  (CONFIG_EXTRA_ENV_SETTINGS c).bind
    (fun env => (getenv env "update").map (scriptCommands env))

/-- The sector ranges that `update` erases, in order. -/
def updateErases (c : Config) : Option (List (Nat × List Nat)) :=
  (updateCommands c).map (fun cmds => (cmds.map erases).flatten)

/-- The sector ranges that `update` write-protects, in order. -/
def updateProtects (c : Config) : Option (List (Nat × List Nat)) :=
  (updateCommands c).map (fun cmds => (cmds.map protects).flatten)

/-! ## Bookkeeping used by the proofs -/

/-- Does the directive define or undefine the name. -/
def touches (n : String) : Directive → Bool
  | .define m _ => m = n
  | .defineFn m _ _ => m = n
  | .undefD m => m = n
  | .includeD _ => n ∈ config_cmd_default_h
  | _ => false

/-- No directive of the list defines or undefines the name. -/
def untouched (n : String) (ds : List (Nat × Directive)) : Bool :=
  ds.all (fun d => !touches n d.2)

/-- A conditional group opened at the given line, in text that is being processed, whose
first branch was selected. -/
def selected (line : Nat) : Frame :=
  { line := line, outer := true, taken := true, active := true, seenElse := false }


/-- State after lines 25-96. -/
def afterTop (c : Config) : State := processAll (start c) (vip1970_h_top c)

/-- State after lines 25-153. -/
def afterConsole (c : Config) : State := processAll (afterTop c) vip1970_h_console

/-- State after lines 25-219. -/
def afterStorage (c : Config) : State := processAll (afterConsole c) (vip1970_h_storage c)

/-- The message of line 82, as reported. -/
def sectorsError : Nat × String := (82, "#error \"Unable to determine sectors for monitor\"")

/-- Errors that lines 77-83 report, given the value of the constant on line 60 (`none`
when it is not an integer constant); `top_facts` shows that processing reports these. -/
def sectorsErrors : Option Nat → List (Nat × String)
  | some L => if L = 0x20000 ∨ L = 0x40000 then [] else [sectorsError]
  | none => [(77, "#if with no expression value"), (79, "#if with no expression value"),
             sectorsError]

/-- Definition of `MONITOR_SECTORS` that lines 77-83 make, given the value of the
constant on line 60; `top_facts` shows that processing makes it. -/
def sectorsDef : Option Nat → Option Def
  | some L =>
    if L = 0x20000 then some (.obj (.str "1:0"))
    else if L = 0x40000 then some (.obj (.str "1:0-1")) else none
  | none => none


/-- The message reported at the end of the file for the group opened at line 25. -/
def unterminated : Nat × String := (25, "unterminated conditional")

/-- What the header leaves behind: the errors reported, and the definitions the
configuration constants are read from. -/
structure FinalFacts (c : Config) : Prop where
  errors : (outcome c).errors = sectorsErrors (numVal c.monitor_len) ++ [unterminated]
  closed : (128, 358) ∈ (outcome c).closed
  sec : lookupDef (outcome c).defs "MONITOR_SECTORS" = sectorsDef (numVal c.monitor_len)
  flash_base : lookupDef (outcome c).defs "CFG_FLASH_BASE" = some (.obj (.num c.flash_base))
  monitor_len : lookupDef (outcome c).defs "CFG_MONITOR_LEN" = some (.obj (.num c.monitor_len))
  monitor_base :
    lookupDef (outcome c).defs "CFG_MONITOR_BASE" = some (.obj (.ident "CFG_FLASH_BASE"))
  sdram_base : lookupDef (outcome c).defs "CFG_SDRAM_BASE" =
    some (.obj (.num (if c.se_mode then "0x80000000" else "0x84000000")))
  clock : lookupDef (outcome c).defs "INPUT_CLOCK_RATE" = some (.obj (.num (c.clock.getD "30")))
  board : lookupDef (outcome c).defs "BOARD" = some (.obj (.ident "vip1970"))
  vip1970 : lookupDef (outcome c).defs "vip1970" = none
  xstr : lookupDef (outcome c).defs "XSTR" = some (.fn "s" (.call "STR" (.ident "s")))
  str : lookupDef (outcome c).defs "STR" = some (.fn "s" (.hash "s"))
  env : lookupDef (outcome c).defs "CONFIG_EXTRA_ENV_SETTINGS" =
    some (.obj CONFIG_EXTRA_ENV_SETTINGS_body)
  usb : (lookupDef (outcome c).defs "CONFIG_SH_STB7100_USB").isSome = c.usb
  ide : (lookupDef (outcome c).defs "CONFIG_SH_STB7100_IDE").isSome = c.ide
  sata : (lookupDef (outcome c).defs "CONFIG_SH_STB7100_SATA").isSome = c.sata
  lba64 : (lookupDef (outcome c).defs "CFG_64BIT_LBA").isSome = (c.ide || c.sata || c.usb)
  lba48 : (lookupDef (outcome c).defs "CONFIG_LBA48").isSome = (c.ide || c.sata || c.usb)
  dos : (lookupDef (outcome c).defs "CONFIG_DOS_PARTITION").isSome = (c.ide || c.sata || c.usb)
  ext2 : (lookupDef (outcome c).defs "CONFIG_CMD_EXT2").isSome = (c.ide || c.sata || c.usb)
  ata_base : c.sata = true →
    lookupDef (outcome c).defs "CFG_ATA_BASE_ADDR" = some (.obj (.num "0xB9209800"))
  ata_ide0 : c.sata = true →
    lookupDef (outcome c).defs "CFG_ATA_IDE0_OFFSET" = some (.obj (.num "0x0"))
  ata_reg : c.sata = true →
    lookupDef (outcome c).defs "CFG_ATA_REG_OFFSET" = some (.obj (.num "0x0"))
  ata_data : c.sata = true →
    lookupDef (outcome c).defs "CFG_ATA_DATA_OFFSET" = some (.obj (.num "0x0"))
  ata_stride : c.sata = true →
    lookupDef (outcome c).defs "CFG_ATA_STRIDE" = some (.obj (.num "0x4"))
  ata_alt : c.sata = true →
    lookupDef (outcome c).defs "CFG_ATA_ALT_OFFSET" = some (.obj (.num "0x8"))
  load_addr : lookupDef (outcome c).defs "CFG_LOAD_ADDR" = some (.obj (.ident "CFG_SDRAM_BASE"))
  mtdparts_nor : lookupDef (outcome c).defs "MTDPARTS_NOR" = some (.obj MTDPARTS_NOR_body)
  nand_env_offset : lookupDef (outcome c).defs "CFG_NAND_ENV_OFFSET" =
    some (.obj (.paren (.add (.ident "CFG_MONITOR_LEN") (.num "0x0"))))
  env_offset : lookupDef (outcome c).defs "CFG_ENV_OFFSET" = some (.obj (.ident "CFG_MONITOR_LEN"))
  env_addr : lookupDef (outcome c).defs "CFG_ENV_ADDR" =
    some (.obj (.paren (.add (.ident "CFG_FLASH_BASE") (.ident "CFG_ENV_OFFSET"))))
  env_size : lookupDef (outcome c).defs "CFG_ENV_SIZE" = some (.obj (.num "0x10000"))
  env_sect_size : lookupDef (outcome c).defs "CFG_ENV_SECT_SIZE" = some (.obj (.num "0x20000"))

/-! ## Unfolding lemmas -/

theorem step_ifdef (s : State) (l : Nat) (n : String) :
    step s l (.ifdefD n) = s.openGroup l (isDefined s.defs n) := rfl

theorem step_ifndef (s : State) (l : Nat) (n : String) :
    step s l (.ifndefD n) = s.openGroup l (!isDefined s.defs n) := rfl

theorem step_ifE (s : State) (l : Nat) (e : Expr) :
    step s l (.ifE e) = if s.active then (s.cond l e).1.openGroup l (s.cond l e).2
      else s.openGroup l false := rfl

theorem step_elifE (s : State) (l : Nat) (e : Expr) :
    step s l (.elifE e) = match s.stack with
    | [] => { s with errors := s.errors ++ [(l, "#elif without #if")] }
    | f :: rest =>
      if f.seenElse then { s with errors := s.errors ++ [(l, "#elif after #else")] }
      else if f.outer && !f.taken then
        { defs := (State.cond { s with stack := rest } l e).1.defs,
          stack := { f with taken := (State.cond { s with stack := rest } l e).2,
                            active := (State.cond { s with stack := rest } l e).2 } :: rest,
          errors := (State.cond { s with stack := rest } l e).1.errors,
          warnings := (State.cond { s with stack := rest } l e).1.warnings,
          closed := (State.cond { s with stack := rest } l e).1.closed }
      else { s with stack := { f with active := false } :: rest } := rfl

theorem step_elseD (s : State) (l : Nat) :
    step s l .elseD = match s.stack with
    | [] => { s with errors := s.errors ++ [(l, "#else without #if")] }
    | f :: rest =>
      if f.seenElse then { s with errors := s.errors ++ [(l, "#else after #else")] }
      else
        { s with stack := { f with taken := f.taken || (f.outer && !f.taken),
                                   active := f.outer && !f.taken, seenElse := true } :: rest } := rfl

theorem step_endif (s : State) (l : Nat) :
    step s l .endif = match s.stack with
    | [] => { s with errors := s.errors ++ [(l, "#endif without #if")] }
    | f :: rest => { s with stack := rest, closed := s.closed ++ [(f.line, l)] } := rfl

theorem step_define (s : State) (l : Nat) (n : String) (b : Expr) :
    step s l (.define n b) = if s.active then s.addDef n (.obj b) else s := rfl

theorem step_defineFn (s : State) (l : Nat) (n p : String) (b : Expr) :
    step s l (.defineFn n p b) = if s.active then s.addDef n (.fn p b) else s := rfl

theorem step_undef (s : State) (l : Nat) (n : String) :
    step s l (.undefD n) = if s.active then { s with defs := undefine s.defs n } else s := rfl

theorem step_error (s : State) (l : Nat) (m : String) :
    step s l (.error m) =
      if s.active then { s with errors := s.errors ++ [(l, "#error " ++ m)] } else s := rfl

theorem step_warning (s : State) (l : Nat) (m : String) :
    step s l (.warning m) =
      if s.active then { s with warnings := s.warnings ++ [(l, "#warning " ++ m)] } else s := rfl

theorem step_includeD (s : State) (l : Nat) (m : String) :
    step s l (.includeD m) =
      if s.active then s.addDef "CONFIG_CMD_FLASH" (.obj .empty) else s := rfl

theorem addDef_eq (s : State) (n : String) (d : Def) :
    s.addDef n d = { s with defs := (n, d) :: s.defs } := rfl

theorem openGroup_eq (s : State) (l : Nat) (b : Bool) :
    s.openGroup l b =
      { s with stack := Frame.mk l s.active (s.active && b) (s.active && b) false :: s.stack } := rfl

theorem active_nil (d : Defs) (e w : List (Nat × String)) (c : List (Nat × Nat)) :
    State.active { defs := d, stack := [], errors := e, warnings := w, closed := c } = true := rfl

theorem active_cons (d : Defs) (f : Frame) (r : List Frame) (e w : List (Nat × String))
    (c : List (Nat × Nat)) :
    State.active { defs := d, stack := f :: r, errors := e, warnings := w, closed := c }
      = f.active := rfl

theorem cond_eq (s : State) (l : Nat) (e : Expr) :
    s.cond l e = match evalIf s.defs e with
    | some v => (s, decide (v ≠ 0))
    | none => ({ s with errors := s.errors ++ [(l, "#if with no expression value")] }, false) := rfl

theorem isDefined_eq (t : Defs) (n : String) : isDefined t n = (lookupDef t n).isSome := rfl

theorem evalIf_eq (t : Defs) (e : Expr) :
    evalIf t e = evalPP (expand t expandFuel [] (resolveDefined t e)) := rfl

theorem finish_eq (s : State) : finish s =
    { s with errors := s.errors ++
               s.stack.reverse.map (fun f => (f.line, "unterminated conditional")),
             stack := [] } := rfl

theorem numVal_20000 : numVal "0x00020000" = some 0x20000 := by decide
theorem numVal_40000 : numVal "0x00040000" = some 0x40000 := by decide
theorem numVal_1 : numVal "1" = some 1 := by decide
theorem numVal_2 : numVal "2" = some 2 := by decide
theorem numVal_0 : numVal "0" = some 0 := by decide

/-! ## Definitions that a stretch of directives leaves alone -/

theorem processAll_append (s : State) (a b : List (Nat × Directive)) :
    processAll s (a ++ b) = processAll (processAll s a) b := by
  induction a generalizing s with
  | nil => rfl
  | cons d a ih =>
    obtain ⟨l, d⟩ := d
    simp only [List.cons_append, processAll]
    exact ih _

theorem lookupDef_cons_ne (t : Defs) (k n : String) (d : Def) (h : k ≠ n) :
    lookupDef ((k, d) :: t) n = lookupDef t n := by
  simp [lookupDef, h]

theorem lookupDef_undefine_ne (t : Defs) (m n : String) (h : m ≠ n) :
    lookupDef (undefine t m) n = lookupDef t n := by
  induction t with
  | nil => rfl
  | cons e t ih =>
    obtain ⟨k, d⟩ := e
    by_cases hk : k = m
    · subst hk
      simp [undefine, lookupDef, ih, h]
    · by_cases hn : k = n
      · subst hn
        simp [undefine, lookupDef, hk]
      · simp [undefine, lookupDef, hk, hn, ih]

theorem cond_defs (s : State) (l : Nat) (e : Expr) : (s.cond l e).1.defs = s.defs := by
  unfold State.cond
  cases evalIf s.defs e <;> rfl

theorem step_defs (s : State) (l : Nat) (d : Directive) (n : String)
    (h : touches n d = false) : lookupDef (step s l d).defs n = lookupDef s.defs n := by
  cases d with
  | ifdefD m => rfl
  | ifndefD m => rfl
  | ifE e =>
    rw [step_ifE]
    split
    · rw [openGroup_eq]
      simp only [cond_defs]
    · rfl
  | elifE e =>
    rw [step_elifE]
    split
    · rfl
    · split
      · rfl
      · split
        · simp only [cond_defs]
        · rfl
  | elseD =>
    rw [step_elseD]
    split
    · rfl
    · split <;> rfl
  | endif =>
    rw [step_endif]
    split <;> rfl
  | define m b =>
    rw [step_define]
    split
    · have hm : m ≠ n := by simpa [touches] using h
      exact lookupDef_cons_ne _ _ _ _ hm
    · rfl
  | defineFn m p b =>
    rw [step_defineFn]
    split
    · have hm : m ≠ n := by simpa [touches] using h
      exact lookupDef_cons_ne _ _ _ _ hm
    · rfl
  | undefD m =>
    rw [step_undef]
    split
    · have hm : m ≠ n := by simpa [touches] using h
      exact lookupDef_undefine_ne _ _ _ hm
    · rfl
  | error m =>
    rw [step_error]
    split <;> rfl
  | warning m =>
    rw [step_warning]
    split <;> rfl
  | includeD m =>
    rw [step_includeD]
    split
    · have hm : "CONFIG_CMD_FLASH" ≠ n := by
        intro hEq
        subst hEq
        simp [touches, config_cmd_default_h] at h
      exact lookupDef_cons_ne _ _ _ _ hm
    · rfl

/-- A name that no directive of the list defines or undefines keeps its definition. -/
theorem lookup_processAll (n : String) (ds : List (Nat × Directive)) (s : State)
    (h : untouched n ds = true) :
    lookupDef (processAll s ds).defs n = lookupDef s.defs n := by
  induction ds generalizing s with
  | nil => rfl
  | cons d ds ih =>
    obtain ⟨l, d⟩ := d
    simp only [untouched, List.all_cons, Bool.and_eq_true, Bool.not_eq_true'] at h
    simp only [processAll]
    rw [ih _ (by simpa [untouched] using h.2)]
    exact step_defs s l d n h.1

attribute [simp] step_ifdef step_ifndef step_ifE step_elifE step_elseD step_endif step_define
  step_defineFn step_undef step_error step_warning step_includeD addDef_eq openGroup_eq
  active_nil active_cons cond_eq isDefined_eq evalIf_eq numVal_20000 numVal_40000 numVal_1
  numVal_2 numVal_0

/-! ## What each part of the header leaves behind -/

/-- Lines 25-96, for every configuration. -/
theorem top_facts (c : Config) :
    (afterTop c).stack = [selected 25] ∧
    (afterTop c).errors = sectorsErrors (numVal c.monitor_len) ∧
    lookupDef (afterTop c).defs "MONITOR_SECTORS" = sectorsDef (numVal c.monitor_len) ∧
    lookupDef (afterTop c).defs "CFG_FLASH_BASE" = some (.obj (.num c.flash_base)) ∧
    lookupDef (afterTop c).defs "CFG_MONITOR_LEN" = some (.obj (.num c.monitor_len)) ∧
    lookupDef (afterTop c).defs "CFG_MONITOR_BASE" = some (.obj (.ident "CFG_FLASH_BASE")) ∧
    lookupDef (afterTop c).defs "CFG_SDRAM_BASE" =
      some (.obj (.num (if c.se_mode then "0x80000000" else "0x84000000"))) ∧
    lookupDef (afterTop c).defs "INPUT_CLOCK_RATE" = some (.obj (.num (c.clock.getD "30"))) ∧
    lookupDef (afterTop c).defs "BOARD" = some (.obj (.ident "vip1970")) ∧
    lookupDef (afterTop c).defs "vip1970" = none ∧
    lookupDef (afterTop c).defs "XSTR" = some (.fn "s" (.call "STR" (.ident "s"))) ∧
    lookupDef (afterTop c).defs "STR" = some (.fn "s" (.hash "s")) ∧
    lookupDef (afterTop c).defs "CONFIG_EXTRA_ENV_SETTINGS" =
      some (.obj CONFIG_EXTRA_ENV_SETTINGS_body) ∧
    (lookupDef (afterTop c).defs "CONFIG_SH_SE_MODE").isSome = c.se_mode ∧
    lookupDef (afterTop c).defs "CONFIG_SH_STB7100_USB" = none ∧
    lookupDef (afterTop c).defs "CONFIG_SH_STB7100_IDE" = none ∧
    lookupDef (afterTop c).defs "CONFIG_SH_STB7100_SATA" = none := by
  obtain ⟨se, clk, usb, ide, sata, ml, fb⟩ := c
  generalize hS : afterTop _ = S
  cases h : numVal ml with
  | none =>
    cases se <;> cases clk <;>
      (simp [afterTop, vip1970_h_top, start, buildDefs, processAll,
        lookupDef, expand, expandFuel, resolveDefined, evalPP, h] at hS
       subst hS
       simp [selected, sectorsError, sectorsErrors, sectorsDef, lookupDef])
  | some L =>
    by_cases h1 : L = 0x20000
    · subst h1
      cases se <;> cases clk <;>
        (simp [afterTop, vip1970_h_top, start, buildDefs, processAll,
          lookupDef, expand, expandFuel, resolveDefined, evalPP, h] at hS
         subst hS
         simp [selected, sectorsErrors, sectorsDef, lookupDef])
    · by_cases h2 : L = 0x40000
      · subst h2
        cases se <;> cases clk <;>
          (simp [afterTop, vip1970_h_top, start, buildDefs, processAll,
            lookupDef, expand, expandFuel, resolveDefined, evalPP, h] at hS
           subst hS
           simp [selected, sectorsErrors, sectorsDef, lookupDef])
      · cases se <;> cases clk <;>
          (simp [afterTop, vip1970_h_top, start, buildDefs, processAll,
            lookupDef, expand, expandFuel, resolveDefined, evalPP, h, h1, h2] at hS
           subst hS
           simp [selected, sectorsError, sectorsErrors, sectorsDef, lookupDef, h1, h2])

/-- Lines 102-153: the group opened at line 128 is still open at line 153. -/
theorem console_facts (s : State) (hs : s.stack = [selected 25]) :
    (processAll s vip1970_h_console).stack = [selected 128, selected 25] ∧
    (processAll s vip1970_h_console).errors = s.errors ∧
    (processAll s vip1970_h_console).closed = s.closed ++ [(120, 124), (130, 134)] := by
  obtain ⟨T, stk, E, W, Cl⟩ := s
  simp only at hs
  subst hs
  generalize hS : processAll _ _ = S
  simp [vip1970_h_console, selected, processAll, lookupDef, expand, expandFuel, resolveDefined,
    evalPP] at hS
  subst hS
  simp [selected]

/-- Lines 161-219, entered with the groups of lines 25 and 128 open. -/
theorem storage_facts (c : Config) (s : State) (hs : s.stack = [selected 128, selected 25])
    (hse : (lookupDef s.defs "CONFIG_SH_SE_MODE").isSome = c.se_mode)
    (husb : lookupDef s.defs "CONFIG_SH_STB7100_USB" = none)
    (hide : lookupDef s.defs "CONFIG_SH_STB7100_IDE" = none)
    (hsata : lookupDef s.defs "CONFIG_SH_STB7100_SATA" = none)
    (h1 : lookupDef s.defs "CFG_64BIT_LBA" = none)
    (h2 : lookupDef s.defs "CONFIG_LBA48" = none)
    (h3 : lookupDef s.defs "CONFIG_DOS_PARTITION" = none)
    (h4 : lookupDef s.defs "CONFIG_CMD_EXT2" = none) :
    (processAll s (vip1970_h_storage c)).stack = [selected 128, selected 25] ∧
    (processAll s (vip1970_h_storage c)).errors = s.errors ∧
    (lookupDef (processAll s (vip1970_h_storage c)).defs "CONFIG_SH_STB7100_USB").isSome = c.usb ∧
    (lookupDef (processAll s (vip1970_h_storage c)).defs "CONFIG_SH_STB7100_IDE").isSome = c.ide ∧
    (lookupDef (processAll s (vip1970_h_storage c)).defs "CONFIG_SH_STB7100_SATA").isSome = c.sata ∧
    (lookupDef (processAll s (vip1970_h_storage c)).defs "CFG_64BIT_LBA").isSome
      = (c.ide || c.sata || c.usb) ∧
    (lookupDef (processAll s (vip1970_h_storage c)).defs "CONFIG_LBA48").isSome
      = (c.ide || c.sata || c.usb) ∧
    (lookupDef (processAll s (vip1970_h_storage c)).defs "CONFIG_DOS_PARTITION").isSome
      = (c.ide || c.sata || c.usb) ∧
    (lookupDef (processAll s (vip1970_h_storage c)).defs "CONFIG_CMD_EXT2").isSome
      = (c.ide || c.sata || c.usb) ∧
    (c.sata = true →
      lookupDef (processAll s (vip1970_h_storage c)).defs "CFG_ATA_BASE_ADDR"
        = some (.obj (.num "0xB9209800")) ∧
      lookupDef (processAll s (vip1970_h_storage c)).defs "CFG_ATA_IDE0_OFFSET"
        = some (.obj (.num "0x0")) ∧
      lookupDef (processAll s (vip1970_h_storage c)).defs "CFG_ATA_REG_OFFSET"
        = some (.obj (.num "0x0")) ∧
      lookupDef (processAll s (vip1970_h_storage c)).defs "CFG_ATA_DATA_OFFSET"
        = some (.obj (.num "0x0")) ∧
      lookupDef (processAll s (vip1970_h_storage c)).defs "CFG_ATA_STRIDE"
        = some (.obj (.num "0x4")) ∧
      lookupDef (processAll s (vip1970_h_storage c)).defs "CFG_ATA_ALT_OFFSET"
        = some (.obj (.num "0x8"))) := by
  obtain ⟨se, clk, usb, ide, sata, ml, fb⟩ := c
  obtain ⟨T, stk, E, W, Cl⟩ := s
  simp only at hs hse husb hide hsata h1 h2 h3 h4
  subst hs
  generalize hS : processAll _ _ = S
  cases se <;> cases usb <;> cases ide <;> cases sata <;>
    (simp [vip1970_h_storage, selected, processAll, lookupDef, expand, expandFuel,
       resolveDefined, evalPP, hse, husb, hide, hsata] at hS
     subst hS
     simp [selected, lookupDef, husb, hide, hsata, h1, h2, h3, h4])

/-- Lines 225-358, entered with the groups of lines 25 and 128 open: the `#endif` of
line 358 closes the group of line 128, and the group of line 25 stays open. -/
theorem flash_facts (s : State) (hs : s.stack = [selected 128, selected 25]) :
    (processAll s vip1970_h_flash).stack = [selected 25] ∧
    (processAll s vip1970_h_flash).errors = s.errors ∧
    (processAll s vip1970_h_flash).closed
      = s.closed ++ [(262, 281), (287, 321), (334, 346), (128, 358)] ∧
    lookupDef (processAll s vip1970_h_flash).defs "CFG_LOAD_ADDR"
      = some (.obj (.ident "CFG_SDRAM_BASE")) ∧
    lookupDef (processAll s vip1970_h_flash).defs "MTDPARTS_NOR"
      = some (.obj MTDPARTS_NOR_body) ∧
    lookupDef (processAll s vip1970_h_flash).defs "CFG_NAND_ENV_OFFSET"
      = some (.obj (.paren (.add (.ident "CFG_MONITOR_LEN") (.num "0x0")))) ∧
    lookupDef (processAll s vip1970_h_flash).defs "CFG_ENV_OFFSET"
      = some (.obj (.ident "CFG_MONITOR_LEN")) ∧
    lookupDef (processAll s vip1970_h_flash).defs "CFG_ENV_ADDR"
      = some (.obj (.paren (.add (.ident "CFG_FLASH_BASE") (.ident "CFG_ENV_OFFSET")))) ∧
    lookupDef (processAll s vip1970_h_flash).defs "CFG_ENV_SIZE"
      = some (.obj (.num "0x10000")) ∧
    lookupDef (processAll s vip1970_h_flash).defs "CFG_ENV_SECT_SIZE"
      = some (.obj (.num "0x20000")) := by
  obtain ⟨T, stk, E, W, Cl⟩ := s
  simp only at hs
  subst hs
  generalize hS : processAll _ _ = S
  simp [vip1970_h_flash, selected, processAll, lookupDef, undefine, expand, expandFuel,
    resolveDefined, evalPP] at hS
  subst hS
  simp [selected, lookupDef]

/-! ## Putting the parts together -/

theorem scanned_eq (c : Config) : scanned c = processAll (afterStorage c) vip1970_h_flash := by
  unfold scanned vip1970_h afterStorage afterConsole afterTop
  rw [processAll_append, processAll_append, processAll_append]

theorem outcome_defs (c : Config) : (outcome c).defs = (scanned c).defs := by
  simp only [outcome, finish_eq]

/-- A name that lines 161-219 leave alone when all three optional lines are in force is
left alone whichever of them are. -/
theorem untouched_storage (c : Config) (n : String)
    (h : untouched n (vip1970_h_storage
      { se_mode := false, clock := none, usb := true, ide := true, sata := true,
        monitor_len := "", flash_base := "" }) = true) :
    untouched n (vip1970_h_storage c) = true := by
  obtain ⟨se, clk, usb, ide, sata, ml, fb⟩ := c
  simp only [untouched, vip1970_h_storage, touches, List.all_append, List.all_cons, List.all_nil,
    Bool.and_eq_true, Bool.not_eq_true', decide_eq_false_iff_not, Bool.and_true, if_true,
    Bool.not_false, and_true] at h
  cases usb <;> cases ide <;> cases sata <;>
    simp [untouched, vip1970_h_storage, touches, h]

/-- A name defined in lines 25-96 and left alone afterwards. -/
theorem final_of_top (c : Config) (n : String)
    (h1 : untouched n vip1970_h_console = true)
    (h2 : untouched n (vip1970_h_storage
      { se_mode := false, clock := none, usb := true, ide := true, sata := true,
        monitor_len := "", flash_base := "" }) = true)
    (h3 : untouched n vip1970_h_flash = true) :
    lookupDef (outcome c).defs n = lookupDef (afterTop c).defs n := by
  rw [outcome_defs, scanned_eq, lookup_processAll n _ _ h3]
  unfold afterStorage
  rw [lookup_processAll n _ _ (untouched_storage c n h2)]
  unfold afterConsole
  rw [lookup_processAll n _ _ h1]

/-- A name left alone by lines 102-153. -/
theorem console_keeps (c : Config) (n : String) (h1 : untouched n vip1970_h_console = true) :
    lookupDef (afterConsole c).defs n = lookupDef (afterTop c).defs n := by
  unfold afterConsole
  rw [lookup_processAll n _ _ h1]

/-- A name defined in lines 161-219 and left alone afterwards. -/
theorem final_of_storage (c : Config) (n : String) (h3 : untouched n vip1970_h_flash = true) :
    lookupDef (outcome c).defs n = lookupDef (afterStorage c).defs n := by
  rw [outcome_defs, scanned_eq, lookup_processAll n _ _ h3]

theorem lookup_start (c : Config) (n : String) (h1 : n ≠ "CONFIG_SH_SE_MODE")
    (h2 : n ≠ "INPUT_CLOCK_RATE") : lookupDef (start c).defs n = none := by
  obtain ⟨se, clk, usb, ide, sata, ml, fb⟩ := c
  cases se <;> cases clk <;> simp [start, buildDefs, lookupDef, Ne.symm h1, Ne.symm h2]

/-- A name that the header never defines is undefined when lines 161-219 are entered. -/
theorem absent_before_storage (c : Config) (n : String) (h1 : n ≠ "CONFIG_SH_SE_MODE")
    (h2 : n ≠ "INPUT_CLOCK_RATE")
    (ht : ∀ c : Config, untouched n (vip1970_h_top c) = true)
    (hc : untouched n vip1970_h_console = true) :
    lookupDef (afterConsole c).defs n = none := by
  rw [console_keeps c n hc]
  unfold afterTop
  rw [lookup_processAll n _ _ (ht c)]
  exact lookup_start c n h1 h2

theorem untouched_top (c : Config) (n : String)
    (h : untouched n (vip1970_h_top
      { se_mode := false, clock := none, usb := false, ide := false, sata := false,
        monitor_len := "", flash_base := "" }) = true) :
    untouched n (vip1970_h_top c) = true := by
  simpa [untouched, vip1970_h_top, touches] using h

/-- The states between the parts of the header. -/
theorem stage_facts (c : Config) :
    (afterStorage c).stack = [selected 128, selected 25] ∧
    (afterStorage c).errors = sectorsErrors (numVal c.monitor_len) ∧
    (lookupDef (afterStorage c).defs "CONFIG_SH_STB7100_USB").isSome = c.usb ∧
    (lookupDef (afterStorage c).defs "CONFIG_SH_STB7100_IDE").isSome = c.ide ∧
    (lookupDef (afterStorage c).defs "CONFIG_SH_STB7100_SATA").isSome = c.sata ∧
    (lookupDef (afterStorage c).defs "CFG_64BIT_LBA").isSome = (c.ide || c.sata || c.usb) ∧
    (lookupDef (afterStorage c).defs "CONFIG_LBA48").isSome = (c.ide || c.sata || c.usb) ∧
    (lookupDef (afterStorage c).defs "CONFIG_DOS_PARTITION").isSome
      = (c.ide || c.sata || c.usb) ∧
    (lookupDef (afterStorage c).defs "CONFIG_CMD_EXT2").isSome = (c.ide || c.sata || c.usb) ∧
    (c.sata = true →
      lookupDef (afterStorage c).defs "CFG_ATA_BASE_ADDR" = some (.obj (.num "0xB9209800")) ∧
      lookupDef (afterStorage c).defs "CFG_ATA_IDE0_OFFSET" = some (.obj (.num "0x0")) ∧
      lookupDef (afterStorage c).defs "CFG_ATA_REG_OFFSET" = some (.obj (.num "0x0")) ∧
      lookupDef (afterStorage c).defs "CFG_ATA_DATA_OFFSET" = some (.obj (.num "0x0")) ∧
      lookupDef (afterStorage c).defs "CFG_ATA_STRIDE" = some (.obj (.num "0x4")) ∧
      lookupDef (afterStorage c).defs "CFG_ATA_ALT_OFFSET" = some (.obj (.num "0x8"))) := by
  have ht := top_facts c
  have hc := console_facts (afterTop c) ht.1
  have hst : (afterConsole c).stack = [selected 128, selected 25] := hc.1
  have hse : (lookupDef (afterConsole c).defs "CONFIG_SH_SE_MODE").isSome = c.se_mode := by
    rw [console_keeps c _ (by decide)]
    exact ht.2.2.2.2.2.2.2.2.2.2.2.2.2.1
  have husb : lookupDef (afterConsole c).defs "CONFIG_SH_STB7100_USB" = none := by
    rw [console_keeps c _ (by decide)]
    exact ht.2.2.2.2.2.2.2.2.2.2.2.2.2.2.1
  have hide : lookupDef (afterConsole c).defs "CONFIG_SH_STB7100_IDE" = none := by
    rw [console_keeps c _ (by decide)]
    exact ht.2.2.2.2.2.2.2.2.2.2.2.2.2.2.2.1
  have hsata : lookupDef (afterConsole c).defs "CONFIG_SH_STB7100_SATA" = none := by
    rw [console_keeps c _ (by decide)]
    exact ht.2.2.2.2.2.2.2.2.2.2.2.2.2.2.2.2
  have h1 : lookupDef (afterConsole c).defs "CFG_64BIT_LBA" = none :=
    absent_before_storage c _ (by decide) (by decide)
      (fun c => untouched_top c _ (by decide)) (by decide)
  have h2 : lookupDef (afterConsole c).defs "CONFIG_LBA48" = none :=
    absent_before_storage c _ (by decide) (by decide)
      (fun c => untouched_top c _ (by decide)) (by decide)
  have h3 : lookupDef (afterConsole c).defs "CONFIG_DOS_PARTITION" = none :=
    absent_before_storage c _ (by decide) (by decide)
      (fun c => untouched_top c _ (by decide)) (by decide)
  have h4 : lookupDef (afterConsole c).defs "CONFIG_CMD_EXT2" = none :=
    absent_before_storage c _ (by decide) (by decide)
      (fun c => untouched_top c _ (by decide)) (by decide)
  have hs := storage_facts c (afterConsole c) hst hse husb hide hsata h1 h2 h3 h4
  refine ⟨hs.1, ?_, hs.2.2⟩
  show (processAll (afterConsole c) (vip1970_h_storage c)).errors = _
  rw [hs.2.1]
  show (processAll (afterTop c) vip1970_h_console).errors = _
  rw [hc.2.1, ht.2.1]

/-- Every configuration leaves these facts behind. -/
theorem final_facts (c : Config) : FinalFacts c := by
  have ht := top_facts c
  have hs := stage_facts c
  have hf := flash_facts (afterStorage c) hs.1
  obtain ⟨t1, t2, t3, t4, t5, t6, t7, t8, t9, t10, t11, t12, t13, -⟩ := ht
  obtain ⟨s1, s2, s3, s4, s5, s6, s7, s8, s9, s10⟩ := hs
  obtain ⟨f1, f2, f3, f4, f5, f6, f7, f8, f9, f10⟩ := hf
  have hfin : ∀ n, lookupDef (outcome c).defs n
      = lookupDef (processAll (afterStorage c) vip1970_h_flash).defs n := by
    intro n
    rw [outcome_defs, scanned_eq]
  refine
    { errors := ?_, closed := ?_, sec := ?_, flash_base := ?_, monitor_len := ?_,
      monitor_base := ?_, sdram_base := ?_, clock := ?_, board := ?_, vip1970 := ?_,
      xstr := ?_, str := ?_, env := ?_, usb := ?_, ide := ?_, sata := ?_, lba64 := ?_,
      lba48 := ?_, dos := ?_, ext2 := ?_, ata_base := ?_, ata_ide0 := ?_, ata_reg := ?_,
      ata_data := ?_, ata_stride := ?_, ata_alt := ?_, load_addr := ?_, mtdparts_nor := ?_,
      nand_env_offset := ?_, env_offset := ?_, env_addr := ?_, env_size := ?_,
      env_sect_size := ?_ }
  · have e1 : (outcome c).errors = (scanned c).errors
        ++ (scanned c).stack.reverse.map (fun f => (f.line, "unterminated conditional")) := by
      simp only [outcome, finish_eq]
    rw [e1, scanned_eq, f1, f2, s2]
    rfl
  · have e1 : (outcome c).closed = (scanned c).closed := by
      simp only [outcome, finish_eq]
    rw [e1, scanned_eq, f3]
    simp
  · rw [final_of_top c _ (by decide) (by decide) (by decide)]; exact t3
  · rw [final_of_top c _ (by decide) (by decide) (by decide)]; exact t4
  · rw [final_of_top c _ (by decide) (by decide) (by decide)]; exact t5
  · rw [final_of_top c _ (by decide) (by decide) (by decide)]; exact t6
  · rw [final_of_top c _ (by decide) (by decide) (by decide)]; exact t7
  · rw [final_of_top c _ (by decide) (by decide) (by decide)]; exact t8
  · rw [final_of_top c _ (by decide) (by decide) (by decide)]; exact t9
  · rw [final_of_top c _ (by decide) (by decide) (by decide)]; exact t10
  · rw [final_of_top c _ (by decide) (by decide) (by decide)]; exact t11
  · rw [final_of_top c _ (by decide) (by decide) (by decide)]; exact t12
  · rw [final_of_top c _ (by decide) (by decide) (by decide)]; exact t13
  · rw [final_of_storage c _ (by decide)]; exact s3
  · rw [final_of_storage c _ (by decide)]; exact s4
  · rw [final_of_storage c _ (by decide)]; exact s5
  · rw [final_of_storage c _ (by decide)]; exact s6
  · rw [final_of_storage c _ (by decide)]; exact s7
  · rw [final_of_storage c _ (by decide)]; exact s8
  · rw [final_of_storage c _ (by decide)]; exact s9
  · intro hs; rw [final_of_storage c _ (by decide)]; exact (s10 hs).1
  · intro hs; rw [final_of_storage c _ (by decide)]; exact (s10 hs).2.1
  · intro hs; rw [final_of_storage c _ (by decide)]; exact (s10 hs).2.2.1
  · intro hs; rw [final_of_storage c _ (by decide)]; exact (s10 hs).2.2.2.1
  · intro hs; rw [final_of_storage c _ (by decide)]; exact (s10 hs).2.2.2.2.1
  · intro hs; rw [final_of_storage c _ (by decide)]; exact (s10 hs).2.2.2.2.2
  · rw [hfin]; exact f4
  · rw [hfin]; exact f5
  · rw [hfin]; exact f6
  · rw [hfin]; exact f7
  · rw [hfin]; exact f8
  · rw [hfin]; exact f9
  · rw [hfin]; exact f10

/-! ## Integer constants and their types -/

theorem constVal_eq (s : String) (v : Nat) (t : CType) (hv : numVal s = some v)
    (ht : litType s = some t) : constVal s = some ⟨t, v⟩ := by
  simp [constVal, hv, ht]

theorem value_lt (k : Const) : k.value < 2 ^ 64 := by
  unfold Const.value WIDEST
  exact Nat.mod_lt _ (by norm_num)

/-- The type of a constant is 32 or 64 bits wide and holds the constant's value. -/
theorem typeOf_holds (hx u ll : Bool) (v : Nat) (t : CType) (hv : v < 2 ^ 64)
    (h : typeOf hx u ll v = some t) : (t.bits = 32 ∨ t.bits = 64) ∧ t.holds v = true := by
  unfold typeOf at h
  split_ifs at h <;> simp at h <;> subst h <;> simp [CType.holds] <;> omega

theorem litType_holds (s : String) (v : Nat) (t : CType) (hv : numVal s = some v)
    (ht : litType s = some t) : (t.bits = 32 ∨ t.bits = 64) ∧ t.holds v = true := by
  unfold numVal at hv
  unfold litType at ht
  cases hk : parseConst s with
  | none => simp [hk] at hv
  | some k =>
    simp [hk] at hv ht
    subst hv
    exact typeOf_holds _ _ _ _ t (value_lt k) ht

theorem typeOf_small (hx u ll : Bool) (v : Nat) (h : v < 2 ^ 31) :
    ∃ t, typeOf hx u ll v = some t ∧ (t.bits = 32 ∨ t.bits = 64) := by
  unfold typeOf
  split_ifs <;> first | exact ⟨_, rfl, by simp⟩ | omega

/-- A constant below `2 ^ 31` has a type whatever its base and suffix. -/
theorem litType_small (s : String) (v : Nat) (hv : numVal s = some v) (h : v < 2 ^ 31) :
    ∃ t, litType s = some t ∧ (t.bits = 32 ∨ t.bits = 64) := by
  unfold numVal at hv
  unfold litType
  cases hk : parseConst s with
  | none => simp [hk] at hv
  | some k =>
    simp [hk] at hv
    subst hv
    exact typeOf_small _ _ _ _ h

theorem wrap_of_holds (t : CType) (v : Int) (hb : t.bits = 32 ∨ t.bits = 64)
    (h : t.holds v = true) : t.wrap v = v := by
  obtain ⟨b, sg⟩ := t
  simp only at hb
  rcases hb with rfl | rfl <;> cases sg <;> simp [CType.holds] at h <;>
    simp [CType.wrap] <;> omega

theorem arith_bits (a b : CType) (ha : a.bits = 32 ∨ a.bits = 64)
    (hb : b.bits = 32 ∨ b.bits = 64) : (arith a b).bits = 32 ∨ (arith a b).bits = 64 := by
  unfold arith
  split_ifs <;> simp [*]

/-- A type that holds a sum of natural numbers holds either of them. -/
theorem holds_of_sum (t : CType) (a b : Nat) (h : t.holds ((a : Int) + b) = true) :
    t.holds a = true ∧ t.holds b = true := by
  obtain ⟨bits, sg⟩ := t
  have hp : (0 : Int) < 2 ^ (bits - 1) := by positivity
  cases sg <;> simp [CType.holds] at h ⊢ <;> omega

theorem evalC_num (s : String) : evalC (.num s) = constVal s := rfl

theorem evalC_paren (e : Expr) : evalC (.paren e) = evalC e := rfl

theorem evalC_add (a b : Expr) (x y : CVal) (ha : evalC a = some x) (hb : evalC b = some y) :
    evalC (.add a b) = some ⟨arith x.type y.type,
      (arith x.type y.type).wrap
        ((arith x.type y.type).wrap x.val + (arith x.type y.type).wrap y.val)⟩ := by
  simp [evalC, ha, hb]

/-- A sum of two constants whose common type holds the sum of their values. -/
theorem evalC_sum (a b : String) (A B : Nat) (tA tB : CType)
    (hA : numVal a = some A) (htA : litType a = some tA)
    (hB : numVal b = some B) (htB : litType b = some tB)
    (hfit : (arith tA tB).holds ((A : Int) + B) = true) :
    evalC (.add (.num a) (.num b)) = some ⟨arith tA tB, (A : Int) + B⟩ := by
  have hbits := arith_bits tA tB (litType_holds a A tA hA htA).1 (litType_holds b B tB hB htB).1
  have hs := holds_of_sum _ A B hfit
  rw [evalC_add _ _ _ _ (by rw [evalC_num]; exact constVal_eq a A tA hA htA)
    (by rw [evalC_num]; exact constVal_eq b B tB hB htB)]
  simp only
  rw [wrap_of_holds _ _ hbits hs.1, wrap_of_holds _ _ hbits hs.2, wrap_of_holds _ _ hbits hfit]

/-! ## Values of the configuration constants -/

theorem value_MONITOR_SECTORS (c : Config) :
    MONITOR_SECTORS c = match sectorsDef (numVal c.monitor_len) with
      | some (.obj e) => strVal e
      | _ => none := by
  have F := final_facts c
  have e1 := F.sec
  unfold MONITOR_SECTORS stringOf defined expansion
  generalize (outcome c).defs = D at e1 ⊢
  cases h : numVal c.monitor_len with
  | none => simp [h, sectorsDef, expand, expandFuel, e1]
  | some L =>
    by_cases h1 : L = 0x20000
    · simp [h, h1, sectorsDef, expand, expandFuel, e1, strVal]
    · by_cases h2 : L = 0x40000
      · simp [h, h2, sectorsDef, expand, expandFuel, e1, strVal]
      · simp [h, h1, h2, sectorsDef, expand, expandFuel, e1]

theorem typed_CFG_MONITOR_LEN (c : Config) :
    typedValueOf c "CFG_MONITOR_LEN" = constVal c.monitor_len := by
  have F := final_facts c
  have e1 := F.monitor_len
  unfold typedValueOf defined expansion
  generalize (outcome c).defs = D at e1 ⊢
  simp [expand, expandFuel, evalC_num, e1]

theorem typed_CFG_ENV_OFFSET (c : Config) :
    typedValueOf c "CFG_ENV_OFFSET" = constVal c.monitor_len := by
  have F := final_facts c
  have e1 := F.monitor_len
  have e2 := F.env_offset
  unfold typedValueOf defined expansion
  generalize (outcome c).defs = D at e1 e2 ⊢
  simp [expand, expandFuel, evalC_num, e1, e2]

theorem typed_CFG_FLASH_BASE (c : Config) :
    typedValueOf c "CFG_FLASH_BASE" = constVal c.flash_base := by
  have F := final_facts c
  have e1 := F.flash_base
  unfold typedValueOf defined expansion
  generalize (outcome c).defs = D at e1 ⊢
  simp [expand, expandFuel, evalC_num, e1]

theorem typed_CFG_MONITOR_BASE (c : Config) :
    typedValueOf c "CFG_MONITOR_BASE" = constVal c.flash_base := by
  have F := final_facts c
  have e1 := F.flash_base
  have e2 := F.monitor_base
  unfold typedValueOf defined expansion
  generalize (outcome c).defs = D at e1 e2 ⊢
  simp [expand, expandFuel, evalC_num, e1, e2]

theorem typed_CFG_ENV_ADDR (c : Config) :
    typedValueOf c "CFG_ENV_ADDR"
      = evalC (.add (.num c.flash_base) (.num c.monitor_len)) := by
  have F := final_facts c
  have e1 := F.flash_base
  have e2 := F.monitor_len
  have e3 := F.env_offset
  have e4 := F.env_addr
  unfold typedValueOf defined expansion
  generalize (outcome c).defs = D at e1 e2 e3 e4 ⊢
  simp [expand, expandFuel, evalC_paren, e1, e2, e3, e4]

/-- The value of a constant that has a type. -/
theorem value_const (s : String) (v : Nat) (t : CType) (hv : numVal s = some v)
    (ht : litType s = some t) : (constVal s).map CVal.val = some (v : Int) := by
  rw [constVal_eq s v t hv ht]
  rfl

/-- The value of a constant below `2 ^ 31`. -/
theorem value_small (s : String) (v : Nat) (hv : numVal s = some v) (h : v < 2 ^ 31) :
    (constVal s).map CVal.val = some (v : Int) := by
  obtain ⟨t, ht, -⟩ := litType_small s v hv h
  exact value_const s v t hv ht

/-- Line 60 and line 353: the monitor length, if its constant has a type. -/
theorem value_CFG_MONITOR_LEN (c : Config) (L : Nat) (t : CType)
    (hL : numVal c.monitor_len = some L) (ht : litType c.monitor_len = some t) :
    CFG_MONITOR_LEN c = some (L : Int) ∧ CFG_ENV_OFFSET c = some (L : Int) := by
  unfold CFG_MONITOR_LEN CFG_ENV_OFFSET valueOf
  rw [typed_CFG_MONITOR_LEN, typed_CFG_ENV_OFFSET]
  exact ⟨value_const _ L t hL ht, value_const _ L t hL ht⟩

theorem value_CFG_MONITOR_BASE (c : Config) (B : Nat) (t : CType)
    (hB : numVal c.flash_base = some B) (ht : litType c.flash_base = some t) :
    CFG_MONITOR_BASE c = some (B : Int) ∧ CFG_FLASH_BASE c = some (B : Int) := by
  unfold CFG_MONITOR_BASE CFG_FLASH_BASE valueOf
  rw [typed_CFG_MONITOR_BASE, typed_CFG_FLASH_BASE]
  exact ⟨value_const _ B t hB ht, value_const _ B t hB ht⟩

/-- Line 354: the sum of the flash base and the monitor length, if their common type
holds it. -/
theorem value_CFG_ENV_ADDR (c : Config) (B L : Nat) (tB tL : CType)
    (hB : numVal c.flash_base = some B) (htB : litType c.flash_base = some tB)
    (hL : numVal c.monitor_len = some L) (htL : litType c.monitor_len = some tL)
    (hfit : (arith tB tL).holds ((B : Int) + L) = true) :
    typedValueOf c "CFG_ENV_ADDR" = some ⟨arith tB tL, (B : Int) + L⟩ ∧
    CFG_ENV_ADDR c = some ((B : Int) + L) := by
  unfold CFG_ENV_ADDR valueOf
  rw [typed_CFG_ENV_ADDR, evalC_sum _ _ B L tB tL hB htB hL htL hfit]
  exact ⟨rfl, rfl⟩

theorem litType_flash : litType "0xA0000000" = some ⟨32, false⟩ := by decide

/-- The environment address with the shipped flash base and a supported monitor
length. -/
theorem value_CFG_ENV_ADDR_supported (c : Config) (L : Nat)
    (hL : numVal c.monitor_len = some L) (hs : L = 0x00020000 ∨ L = 0x00040000)
    (hB : numVal c.flash_base = some 0xA0000000)
    (htB : litType c.flash_base = some ⟨32, false⟩) :
    CFG_ENV_ADDR c = some (0xA0000000 + (L : Int)) := by
  obtain ⟨⟨b, sg⟩, ht, hb⟩ := litType_small _ L hL (by rcases hs with h | h <;> subst h <;> decide)
  have h := (value_CFG_ENV_ADDR c 0xA0000000 L ⟨32, false⟩ ⟨b, sg⟩ hB htB hL ht
    (by
      simp only at hb
      rcases hb with rfl | rfl <;> cases sg <;> rcases hs with rfl | rfl <;> decide)).2
  simpa using h

theorem value_CFG_ENV_SIZE (c : Config) : CFG_ENV_SIZE c = some 0x10000 := by
  have F := final_facts c
  have e1 := F.env_size
  unfold CFG_ENV_SIZE valueOf typedValueOf defined expansion
  generalize (outcome c).defs = D at e1 ⊢
  simp [expand, expandFuel, evalC_num, e1,
    show constVal "0x10000" = some ⟨⟨32, true⟩, 0x10000⟩ by decide]

theorem value_CFG_ENV_SECT_SIZE (c : Config) : CFG_ENV_SECT_SIZE c = some 0x20000 := by
  have F := final_facts c
  have e1 := F.env_sect_size
  unfold CFG_ENV_SECT_SIZE valueOf typedValueOf defined expansion
  generalize (outcome c).defs = D at e1 ⊢
  simp [expand, expandFuel, evalC_num, e1,
    show constVal "0x20000" = some ⟨⟨32, true⟩, 0x20000⟩ by decide]

theorem numVal_flash : numVal "0xA0000000" = some 0xA0000000 := by decide

theorem litType_20000 : litType "0x00020000" = some ⟨32, true⟩ := by decide

theorem litType_40000 : litType "0x00040000" = some ⟨32, true⟩ := by decide

theorem shipped_monitor_len (se : Bool) (clk : Option String) :
    numVal (shipped se clk).monitor_len = some 0x20000 := numVal_20000

theorem errors_of_final (c : Config) :
    (outcome c).errors = sectorsErrors (numVal c.monitor_len) ++ [unterminated] :=
  (final_facts c).errors

theorem defined_MONITOR_SECTORS (c : Config) :
    defined c "MONITOR_SECTORS" = (sectorsDef (numVal c.monitor_len)).isSome := by
  have F := final_facts c
  have e1 := F.sec
  unfold defined
  generalize (outcome c).defs = D at e1 ⊢
  simp [e1]

theorem defined_switches (c : Config) :
    defined c "CONFIG_SH_STB7100_IDE" = c.ide ∧ defined c "CONFIG_SH_STB7100_SATA" = c.sata ∧
    defined c "CONFIG_SH_STB7100_USB" = c.usb := by
  have F := final_facts c
  exact ⟨F.ide, F.sata, F.usb⟩

theorem value_ATA (c : Config) (h : c.sata = true) :
    CFG_ATA_BASE_ADDR c = some 0xB9209800 ∧ CFG_ATA_STRIDE c = some 4 ∧
    CFG_ATA_ALT_OFFSET c = some 8 ∧ CFG_ATA_IDE0_OFFSET c = some 0 ∧
    CFG_ATA_REG_OFFSET c = some 0 ∧ CFG_ATA_DATA_OFFSET c = some 0 := by
  have F := final_facts c
  have e1 := F.ata_base h
  have e2 := F.ata_stride h
  have e3 := F.ata_alt h
  have e4 := F.ata_ide0 h
  have e5 := F.ata_reg h
  have e6 := F.ata_data h
  unfold CFG_ATA_BASE_ADDR CFG_ATA_STRIDE CFG_ATA_ALT_OFFSET CFG_ATA_IDE0_OFFSET
    CFG_ATA_REG_OFFSET CFG_ATA_DATA_OFFSET valueOf typedValueOf defined expansion
  generalize (outcome c).defs = D at e1 e2 e3 e4 e5 e6 ⊢
  simp [expand, expandFuel, evalC_num, e1, e2, e3, e4, e5, e6,
    show constVal "0xB9209800" = some ⟨⟨32, false⟩, 0xB9209800⟩ by decide,
    show constVal "0x4" = some ⟨⟨32, true⟩, 4⟩ by decide,
    show constVal "0x8" = some ⟨⟨32, true⟩, 8⟩ by decide,
    show constVal "0x0" = some ⟨⟨32, true⟩, 0⟩ by decide]

theorem value_MTDPARTS_NOR (c : Config) :
    MTDPARTS_NOR c =
      some "physmap-flash:256k(U-Boot),128k(Environment),4M(Kernel),-(RestOfNor0)" := by
  have F := final_facts c
  have e1 := F.mtdparts_nor
  unfold MTDPARTS_NOR stringOf defined expansion
  generalize (outcome c).defs = D at e1 ⊢
  simp [expand, expandFuel, strVal, MTDPARTS_NOR_body, Expr.seq, e1]

theorem spell_expansions (c : Config) :
    spell (expansion c "BOARD") = "vip1970" ∧
    spell (expansion c "INPUT_CLOCK_RATE") = c.clock.getD "30" ∧
    spell (expansion c "CFG_FLASH_BASE") = c.flash_base ∧
    spell (expansion c "CFG_MONITOR_BASE") = c.flash_base ∧
    spell (expansion c "CFG_MONITOR_LEN") = c.monitor_len ∧
    spell (expansion c "CFG_SDRAM_BASE") = (if c.se_mode then "0x80000000" else "0x84000000") ∧
    spell (expansion c "CFG_LOAD_ADDR") = (if c.se_mode then "0x80000000" else "0x84000000") := by
  have F := final_facts c
  have e4 := F.board
  have e5 := F.vip1970
  have e6 := F.clock
  have e7 := F.monitor_base
  have e8 := F.flash_base
  have e9 := F.monitor_len
  have e11 := F.load_addr
  have e12 := F.sdram_base
  unfold expansion
  generalize (outcome c).defs = D at e4 e5 e6 e7 e8 e9 e11 e12 ⊢
  simp [expand, expandFuel, spell, e4, e5, e6, e7, e8, e9, e11, e12]

theorem env_string (c : Config) (sec : String)
    (hsec : sectorsDef (numVal c.monitor_len) = some (.obj (.str sec))) :
    CONFIG_EXTRA_ENV_SETTINGS c = some (envBlock
      [ "board=vip1970_" ++ c.clock.getD "30",
        "monitor_base=" ++ c.flash_base,
        "monitor_len=" ++ c.monitor_len,
        "monitor_sec=" ++ sec,
        "load_addr=" ++ (if c.se_mode then "0x80000000" else "0x84000000"),
        "unprot=protect off $monitor_sec",
        "update=erase $monitor_sec;cp.b $load_addr $monitor_base $monitor_len;protect on $monitor_sec" ]) := by
  have F := final_facts c
  have e1 := F.env
  have e2 := F.xstr
  have e3 := F.str
  have e4 := F.board
  have e5 := F.vip1970
  have e6 := F.clock
  have e7 := F.monitor_base
  have e8 := F.flash_base
  have e9 := F.monitor_len
  have e10 := F.sec
  have e11 := F.load_addr
  have e12 := F.sdram_base
  rw [hsec] at e10
  unfold CONFIG_EXTRA_ENV_SETTINGS stringOf defined expansion
  generalize (outcome c).defs = D at e1 e2 e3 e4 e5 e6 e7 e8 e9 e10 e11 e12 ⊢
  simp [expand, expandFuel, subst, spell, strVal, CONFIG_EXTRA_ENV_SETTINGS_body, Expr.seq,
    e1, e2, e3, e4, e5, e6, e7, e8, e9, e10, e11, e12]
  apply String.ext
  simp [envBlock, NUL, String.data_append]

theorem sectors_of_value (c : Config) (sec : String) (h : MONITOR_SECTORS c = some sec) :
    sectorsDef (numVal c.monitor_len) = some (.obj (.str sec)) := by
  rw [value_MONITOR_SECTORS] at h
  cases hv : numVal c.monitor_len with
  | none => simp [hv, sectorsDef] at h
  | some L =>
    by_cases h1 : L = 0x20000
    · simp [hv, h1, sectorsDef, strVal] at h ⊢
      exact h
    · by_cases h2 : L = 0x40000
      · simp [hv, h2, sectorsDef, strVal] at h ⊢
        exact h
      · simp [hv, h1, h2, sectorsDef] at h

/-! ## The default environment and the `update` script -/

theorem digitsVal_chars (base : Nat) (digit : Char → Option Nat) (cs : List Char) :
    ∀ (acc : Nat) (ch : Char), ch ∈ cs →
      (digit ch).isSome = true ∨ ch ∈ (digitsVal base digit acc cs).2 := by
  induction cs with
  | nil => intro acc ch h; simp at h
  | cons c cs ih =>
    intro acc ch h
    unfold digitsVal
    cases hd : digit c with
    | none => exact Or.inr h
    | some d =>
      simp only
      rcases List.mem_cons.1 h with rfl | h
      · exact Or.inl (by simp [hd])
      · exact ih _ ch h

theorem suffixOf_chars (cs : List Char) (r : Bool × Bool) (h : suffixOf cs = some r) :
    cs.all isSuffixChar = true := by
  unfold suffixOf at h
  by_cases hc : cs.all isSuffixChar = true
  · exact hc
  · simp [hc] at h

/-- No digit and no suffix character of a constant is a NUL. -/
theorem mkConst_chars (hex : Bool) (base : Nat) (digit : Char → Option Nat) (cs : List Char)
    (k : Const) (hd : digit '\x00' = none)
    (h : mkConst hex (digitsVal base digit 0 cs) = some k) : '\x00' ∉ cs := by
  intro hm
  unfold mkConst at h
  cases hs : suffixOf (digitsVal base digit 0 cs).2 with
  | none => simp [hs] at h
  | some r =>
    have hall := suffixOf_chars _ r hs
    rcases digitsVal_chars base digit cs 0 _ hm with h1 | h1
    · simp [hd] at h1
    · have := List.all_eq_true.1 hall _ h1
      revert this
      decide

/-- The spelling of an integer constant holds no NUL. -/
theorem numVal_chars (s : String) (v : Nat) (h : numVal s = some v) : '\x00' ∉ s.data := by
  unfold numVal at h
  cases hk : parseConst s with
  | none => simp [hk] at h
  | some k =>
    unfold parseConst at hk
    have e : s.toList = s.data := rfl
    split at hk
    · rename_i d ds heq
      rw [e] at heq
      split_ifs at hk
      have := mkConst_chars _ _ _ _ k (by decide) hk
      rw [heq]
      simp only [List.mem_cons, not_or]
      exact ⟨by decide, by decide, by simpa using this⟩
    · rename_i d ds heq
      rw [e] at heq
      split_ifs at hk
      have := mkConst_chars _ _ _ _ k (by decide) hk
      rw [heq]
      simp only [List.mem_cons, not_or]
      exact ⟨by decide, by decide, by simpa using this⟩
    · rename_i ds heq
      rw [e] at heq
      have := mkConst_chars _ _ _ _ k (by decide) hk
      rw [heq]
      simp only [List.mem_cons, not_or]
      exact ⟨by decide, this⟩
    · rename_i d ds heq
      rw [e] at heq
      split_ifs at hk
      have := mkConst_chars _ _ _ _ k (by decide) hk
      rw [heq]
      exact this
    · simp at hk

theorem splitAt_sep (sep : Char) (xs rest : List Char) (h : sep ∉ xs) :
    splitAt sep (xs ++ sep :: rest) = xs :: splitAt sep rest := by
  induction xs with
  | nil => simp [splitAt]
  | cons c cs ih =>
    have hc : c ≠ sep := fun e => h (by simp [e])
    have hcs : sep ∉ cs := fun e => h (by simp [e])
    simp [splitAt, hc, ih hcs]

theorem envEntries_nil : envEntries (envBlock []) = [] := by decide

/-- The first entry of a block of entries, if it is not empty and holds no NUL. -/
theorem envEntries_cons (e : String) (es : List String) (h0 : '\x00' ∉ e.data)
    (h1 : e.data ≠ []) :
    envEntries (envBlock (e :: es))
      = (String.mk (e.data.takeWhile (· ≠ '=')), String.mk ((e.data.dropWhile (· ≠ '=')).drop 1))
        :: envEntries (envBlock es) := by
  unfold envEntries
  have : (envBlock (e :: es)).toList = e.data ++ '\x00' :: (envBlock es).toList := by
    simp [envBlock, NUL, String.toList, String.data_append]
  rw [this, splitAt_sep _ _ _ h0]
  cases hd : e.data with
  | nil => exact absurd hd h1
  | cons a as => simp [List.takeWhile]

/-- The variables of the default environment of the header. -/
theorem entries_of_block (a b m sec l : String) (ha : '\x00' ∉ a.data) (hb : '\x00' ∉ b.data)
    (hm : '\x00' ∉ m.data) (hsec : '\x00' ∉ sec.data) (hl : '\x00' ∉ l.data) :
    envEntries (envBlock
      [ "board=vip1970_" ++ a, "monitor_base=" ++ b, "monitor_len=" ++ m,
        "monitor_sec=" ++ sec, "load_addr=" ++ l, "unprot=protect off $monitor_sec",
        "update=erase $monitor_sec;cp.b $load_addr $monitor_base $monitor_len;protect on $monitor_sec" ])
      = [ ("board", "vip1970_" ++ a), ("monitor_base", b), ("monitor_len", m),
          ("monitor_sec", sec), ("load_addr", l), ("unprot", "protect off $monitor_sec"),
          ("update",
            "erase $monitor_sec;cp.b $load_addr $monitor_base $monitor_len;protect on $monitor_sec") ] := by
  rw [envEntries_cons _ _ (by simp [String.data_append, ha]) (by simp [String.data_append]),
    envEntries_cons _ _ (by simp [String.data_append, hb]) (by simp [String.data_append]),
    envEntries_cons _ _ (by simp [String.data_append, hm]) (by simp [String.data_append]),
    envEntries_cons _ _ (by simp [String.data_append, hsec]) (by simp [String.data_append]),
    envEntries_cons _ _ (by simp [String.data_append, hl]) (by simp [String.data_append]),
    envEntries_cons _ _ (by decide) (by decide),
    envEntries_cons _ _ (by decide) (by decide), envEntries_nil]
  simp [String.data_append, List.takeWhile, List.dropWhile]
  apply String.ext
  simp [String.data_append]

theorem update_words :
    scriptWords
      "erase $monitor_sec;cp.b $load_addr $monitor_base $monitor_len;protect on $monitor_sec"
      = [ ["erase", "$monitor_sec"],
          ["cp.b", "$load_addr", "$monitor_base", "$monitor_len"],
          ["protect", "on", "$monitor_sec"] ] := by decide

theorem substitute_var (env : String) (name : List Char) :
    substitute env (String.mk ('$' :: name)) = (getenv env (String.mk name)).getD "" := rfl

theorem substitute_erase (env : String) : substitute env "erase" = "erase" := rfl

theorem substitute_cp (env : String) : substitute env "cp.b" = "cp.b" := rfl

theorem substitute_protect (env : String) : substitute env "protect" = "protect" := rfl

theorem substitute_on (env : String) : substitute env "on" = "on" := rfl

/-- The commands of `update` in an environment with the variables of the header. -/
theorem commands_of_entries (env a b m sec l : String)
    (h : envEntries env
      = [ ("board", "vip1970_" ++ a), ("monitor_base", b), ("monitor_len", m),
          ("monitor_sec", sec), ("load_addr", l), ("unprot", "protect off $monitor_sec"),
          ("update",
            "erase $monitor_sec;cp.b $load_addr $monitor_base $monitor_len;protect on $monitor_sec") ]) :
    (getenv env "update").map (scriptCommands env)
      = some [["erase", sec], ["cp.b", l, b, m], ["protect", "on", sec]] := by
  have h1 : getenv env "update" = some
      "erase $monitor_sec;cp.b $load_addr $monitor_base $monitor_len;protect on $monitor_sec" := by
    rw [getenv, h]
    rfl
  have h2 : getenv env "monitor_sec" = some sec := by
    rw [getenv, h]
    rfl
  have h3 : getenv env "load_addr" = some l := by
    rw [getenv, h]
    rfl
  have h4 : getenv env "monitor_base" = some b := by
    rw [getenv, h]
    rfl
  have h5 : getenv env "monitor_len" = some m := by
    rw [getenv, h]
    rfl
  have s2 : substitute env "$monitor_sec" = sec := by
    rw [show "$monitor_sec" = String.mk ('$' :: "monitor_sec".data) from rfl, substitute_var]
    show (getenv env "monitor_sec").getD "" = sec
    rw [h2]
    rfl
  have s3 : substitute env "$load_addr" = l := by
    rw [show "$load_addr" = String.mk ('$' :: "load_addr".data) from rfl, substitute_var]
    show (getenv env "load_addr").getD "" = l
    rw [h3]
    rfl
  have s4 : substitute env "$monitor_base" = b := by
    rw [show "$monitor_base" = String.mk ('$' :: "monitor_base".data) from rfl, substitute_var]
    show (getenv env "monitor_base").getD "" = b
    rw [h4]
    rfl
  have s5 : substitute env "$monitor_len" = m := by
    rw [show "$monitor_len" = String.mk ('$' :: "monitor_len".data) from rfl, substitute_var]
    show (getenv env "monitor_len").getD "" = m
    rw [h5]
    rfl
  rw [h1]
  simp only [Option.map_some', scriptCommands, update_words, List.map_cons, List.map_nil,
    substitute_erase, substitute_cp, substitute_protect, substitute_on, s2, s3, s4, s5]

/-- The commands of `update` for a configuration whose monitor length has a sector
range and whose constants are integer constants. -/
theorem update_commands (c : Config) (sec : String) (B R L : Nat)
    (hsec : sectorsDef (numVal c.monitor_len) = some (.obj (.str sec)))
    (hs : '\x00' ∉ sec.data)
    (hL : numVal c.monitor_len = some L) (hB : numVal c.flash_base = some B)
    (hR : numVal (c.clock.getD "30") = some R) :
    updateCommands c = some
      [ ["erase", sec],
        ["cp.b", if c.se_mode then "0x80000000" else "0x84000000", c.flash_base, c.monitor_len],
        ["protect", "on", sec] ] := by
  unfold updateCommands
  rw [env_string c sec hsec]
  show Option.map (scriptCommands _) (getenv _ "update") = _
  exact commands_of_entries _ _ _ _ _ _
    (entries_of_block _ _ _ _ _ (numVal_chars _ R hR) (numVal_chars _ B hB)
      (numVal_chars _ L hL) hs (by cases c.se_mode <;> decide))

/-! ## The claims -/

/-- C1: for every monitor length `L` (the value of the integer constant on line 60 as
the preprocessor reads it: hexadecimal, octal or decimal, cut to 64 bits), lines 77-83 define `MONITOR_SECTORS` as "1:0" when `L = 0x00020000` and as "1:0-1" when
`L = 0x00040000`, in both cases without reporting an error at line 82; for every other
`L` they leave `MONITOR_SECTORS` undefined and report the `#error` of line 82.  As
shipped (`CFG_MONITOR_LEN = 0x00020000`) the value is "1:0". -/
theorem C1_monitor_sectors (c : Config) (L : Nat) (h : numVal c.monitor_len = some L) :
    (L = 0x00020000 → MONITOR_SECTORS c = some "1:0" ∧ ∀ e ∈ (outcome c).errors, e.1 ≠ 82) ∧
    (L = 0x00040000 → MONITOR_SECTORS c = some "1:0-1" ∧ ∀ e ∈ (outcome c).errors, e.1 ≠ 82) ∧
    (L ≠ 0x00020000 → L ≠ 0x00040000 →
      MONITOR_SECTORS c = none ∧ defined c "MONITOR_SECTORS" = false ∧
      sectorsError ∈ (outcome c).errors) ∧
    (∀ se clk, MONITOR_SECTORS (shipped se clk) = some "1:0") := by
  refine ⟨?_, ?_, ?_, ?_⟩
  · intro hL
    subst hL
    rw [value_MONITOR_SECTORS, errors_of_final, h]
    simp [sectorsDef, sectorsErrors, strVal, unterminated]
  · intro hL
    subst hL
    rw [value_MONITOR_SECTORS, errors_of_final, h]
    simp [sectorsDef, sectorsErrors, strVal, unterminated]
  · intro h1 h2
    rw [value_MONITOR_SECTORS, defined_MONITOR_SECTORS, errors_of_final, h]
    simp [sectorsDef, sectorsErrors, h1, h2]
  · intro se clk
    rw [value_MONITOR_SECTORS, shipped_monitor_len]
    simp [sectorsDef, strVal]

/-- C1 at the header as shipped. -/
theorem C1_monitor_sectors_witness :
    numVal (shipped false none).monitor_len = some 0x00020000 ∧
    MONITOR_SECTORS (shipped false none) = some "1:0" :=
  ⟨by decide, ((C1_monitor_sectors (shipped false none) 0x00020000 (by decide)).1 rfl).1⟩

/-- C3: for each supported monitor length `L` and the shipped flash base, the
environment starts at the first address after the monitor region
(`CFG_ENV_ADDR = CFG_MONITOR_BASE + L`), and no address lies both in
`[CFG_MONITOR_BASE, CFG_MONITOR_BASE + L)` and in
`[CFG_ENV_ADDR, CFG_ENV_ADDR + CFG_ENV_SIZE)`. -/
theorem C3_env_follows_monitor (c : Config) (L : Nat) (hL : numVal c.monitor_len = some L)
    (hs : L = 0x00020000 ∨ L = 0x00040000) (hB : c.flash_base = "0xA0000000") :
    CFG_MONITOR_BASE c = some 0xA0000000 ∧ CFG_MONITOR_LEN c = some L ∧
    CFG_ENV_ADDR c = some (0xA0000000 + L) ∧ CFG_ENV_SIZE c = some 0x10000 ∧
    (∀ a : Nat, ¬ (0xA0000000 ≤ a ∧ a < 0xA0000000 + L ∧
      0xA0000000 + L ≤ a ∧ a < 0xA0000000 + L + 0x10000)) := by
  have hB1 : numVal c.flash_base = some 0xA0000000 := by rw [hB]; exact numVal_flash
  have hB2 : litType c.flash_base = some ⟨32, false⟩ := by rw [hB]; exact litType_flash
  have hsmall : L < 2 ^ 31 := by rcases hs with h | h <;> subst h <;> decide
  obtain ⟨t, ht, -⟩ := litType_small _ L hL hsmall
  refine ⟨?_, (value_CFG_MONITOR_LEN c L t hL ht).1, ?_, value_CFG_ENV_SIZE c, ?_⟩
  · exact (value_CFG_MONITOR_BASE c 0xA0000000 _ hB1 hB2).1
  · exact value_CFG_ENV_ADDR_supported c L hL hs hB1 hB2
  · intro a
    omega

/-- C3 at the header as shipped. -/
theorem C3_env_follows_monitor_witness :
    numVal (shipped false none).monitor_len = some 0x00020000 ∧
    (shipped false none).flash_base = "0xA0000000" ∧
    CFG_ENV_ADDR (shipped false none) = some (0xA0000000 + 0x00020000) :=
  ⟨by decide, rfl,
    (C3_env_follows_monitor (shipped false none) 0x00020000 (by decide) (Or.inl rfl) rfl).2.2.1⟩

/-- C4: whichever of lines 161, 181 and 182 are in force, each of `CFG_64BIT_LBA`,
`CONFIG_LBA48`, `CONFIG_DOS_PARTITION` and `CONFIG_CMD_EXT2` is defined exactly when at
least one of `CONFIG_SH_STB7100_IDE`, `CONFIG_SH_STB7100_SATA`, `CONFIG_SH_STB7100_USB`
is: the four are defined together or not at all. -/
theorem C4_feature_gating (c : Config) :
    defined c "CONFIG_SH_STB7100_IDE" = c.ide ∧
    defined c "CONFIG_SH_STB7100_SATA" = c.sata ∧
    defined c "CONFIG_SH_STB7100_USB" = c.usb ∧
    defined c "CFG_64BIT_LBA" = (defined c "CONFIG_SH_STB7100_IDE" ||
      defined c "CONFIG_SH_STB7100_SATA" || defined c "CONFIG_SH_STB7100_USB") ∧
    defined c "CONFIG_LBA48" = (defined c "CONFIG_SH_STB7100_IDE" ||
      defined c "CONFIG_SH_STB7100_SATA" || defined c "CONFIG_SH_STB7100_USB") ∧
    defined c "CONFIG_DOS_PARTITION" = (defined c "CONFIG_SH_STB7100_IDE" ||
      defined c "CONFIG_SH_STB7100_SATA" || defined c "CONFIG_SH_STB7100_USB") ∧
    defined c "CONFIG_CMD_EXT2" = (defined c "CONFIG_SH_STB7100_IDE" ||
      defined c "CONFIG_SH_STB7100_SATA" || defined c "CONFIG_SH_STB7100_USB") := by
  have F := final_facts c
  obtain ⟨h1, h2, h3⟩ := defined_switches c
  rw [h1, h2, h3]
  exact ⟨rfl, rfl, rfl, F.lba64, F.lba48, F.dos, F.ext2⟩

/-- C5 fails on the header: the partitions of fixed size in `MTDPARTS_NOR` (256k, 128k,
4M) add up to 4480 KiB, which is more than the 16 KiB that the note at lines 258-261
gives as the addressable NOR flash.  The other half of the claim holds: exactly one
partition, the last, is the remainder `-`. -/
theorem C5_partitions_exceed_addressable (c : Config) :
    (MTDPARTS_NOR c).bind parseMtdparts = some ("physmap-flash",
      [ { size := some (256 * 1024), name := "U-Boot" },
        { size := some (128 * 1024), name := "Environment" },
        { size := some (4 * 1024 * 1024), name := "Kernel" },
        { size := none, name := "RestOfNor0" } ]) ∧
    fixedTotal
      [ { size := some (256 * 1024), name := "U-Boot" },
        { size := some (128 * 1024), name := "Environment" },
        { size := some (4 * 1024 * 1024), name := "Kernel" },
        { size := none, name := "RestOfNor0" } ] = 4480 * 1024 ∧
    NOR_ADDRESSABLE = 16 * 1024 ∧
    ¬ (4480 * 1024 ≤ NOR_ADDRESSABLE) ∧
    (List.filter (fun p => p.size = none)
      [ { size := some (256 * 1024), name := "U-Boot" },
        { size := some (128 * 1024), name := "Environment" },
        { size := some (4 * 1024 * 1024), name := "Kernel" },
        ({ size := none, name := "RestOfNor0" } : Partition) ]).length = 1 ∧
    (List.getLast?
      [ { size := some (256 * 1024), name := "U-Boot" },
        { size := some (128 * 1024), name := "Environment" },
        { size := some (4 * 1024 * 1024), name := "Kernel" },
        ({ size := none, name := "RestOfNor0" } : Partition) ]).map (fun p => p.size)
      = some none := by
  refine ⟨?_, by decide, rfl, by decide, by decide, by decide⟩
  rw [value_MTDPARTS_NOR]
  decide

/-- C6: whenever line 182 (`#define CONFIG_SH_STB7100_SATA`) is in force, in SE mode or
not and whatever the other switches, `CFG_ATA_BASE_ADDR` is `0xB9209800`,
`CFG_ATA_STRIDE` is 4, `CFG_ATA_ALT_OFFSET` is 8, and the IDE0, register and data offsets
are 0.  As shipped `CONFIG_SH_STB7100_SATA` is defined and `CONFIG_SH_STB7100_IDE` is
not, and the ATA base and stride are not the IDE ones. -/
theorem C6_sata_parameters (c : Config) (h : c.sata = true) :
    defined c "CONFIG_SH_STB7100_SATA" = true ∧
    CFG_ATA_BASE_ADDR c = some 0xB9209800 ∧ CFG_ATA_STRIDE c = some 4 ∧
    CFG_ATA_ALT_OFFSET c = some 8 ∧ CFG_ATA_IDE0_OFFSET c = some 0 ∧
    CFG_ATA_REG_OFFSET c = some 0 ∧ CFG_ATA_DATA_OFFSET c = some 0 ∧
    (∀ se clk, defined (shipped se clk) "CONFIG_SH_STB7100_SATA" = true ∧
      defined (shipped se clk) "CONFIG_SH_STB7100_IDE" = false ∧
      CFG_ATA_BASE_ADDR (shipped se clk) ≠ some 0xA2800000 ∧
      CFG_ATA_BASE_ADDR (shipped se clk) ≠ some 0xB2800000 ∧
      CFG_ATA_STRIDE (shipped se clk) ≠ some 0x00020000) := by
  obtain ⟨a1, a2, a3, a4, a5, a6⟩ := value_ATA c h
  refine ⟨?_, a1, a2, a3, a4, a5, a6, ?_⟩
  · rw [(defined_switches c).2.1, h]
  · intro se clk
    obtain ⟨b1, b2, -, -, -, -⟩ := value_ATA (shipped se clk) rfl
    obtain ⟨d1, d2, -⟩ := defined_switches (shipped se clk)
    refine ⟨d2, d1, ?_, ?_, ?_⟩
    · rw [b1]; decide
    · rw [b1]; decide
    · rw [b2]; decide

/-- C6 in SE mode with the IDE and USB lines in force as well. -/
theorem C6_sata_parameters_witness :
    ({ shipped true none with ide := true, usb := true } : Config).sata = true ∧
    CFG_ATA_BASE_ADDR { shipped true none with ide := true, usb := true } = some 0xB9209800 :=
  ⟨rfl, (C6_sata_parameters { shipped true none with ide := true, usb := true } rfl).2.1⟩

/-- C7 fails on the header: for every configuration, supported monitor length or not,
processing ends with the group opened by `#ifndef __CONFIG_H` (line 25) still open, so an
error is reported and the build does not succeed.  The `#endif` of line 358 closes the
`#if 1` of line 128, which has no `#endif` of its own; with a supported monitor length
this is the only error. -/
theorem C7_conditional_left_open (c : Config) :
    buildOk c = false ∧ unterminated ∈ (outcome c).errors ∧
    (128, 358) ∈ (outcome c).closed ∧
    (numVal c.monitor_len = some 0x00020000 ∨ numVal c.monitor_len = some 0x00040000 →
      (outcome c).errors = [unterminated]) := by
  have F := final_facts c
  refine ⟨?_, ?_, F.closed, ?_⟩
  · unfold buildOk
    rw [F.errors]
    simp
  · rw [F.errors]
    simp
  · intro h
    rw [F.errors]
    rcases h with h | h <;> rw [h] <;> simp [sectorsErrors]

/-- C8: whenever `MONITOR_SECTORS` has a value, `CONFIG_EXTRA_ENV_SETTINGS` is the
entries `board`, `monitor_base`, `monitor_len`, `monitor_sec`, `load_addr`, `unprot`,
`update`, in this order and each ended by a NUL, the values being the spellings of
`BOARD` and `INPUT_CLOCK_RATE`, of `CFG_MONITOR_BASE` (that of `CFG_FLASH_BASE`), of
`CFG_MONITOR_LEN`, the value of `MONITOR_SECTORS`, and the spelling of `CFG_LOAD_ADDR`
(that of `CFG_SDRAM_BASE`).  As shipped, without a clock rate from the build and in
non-SE mode, it is the seven entries listed in the claim. -/
theorem C8_default_environment (c : Config) (sec : String) (h : MONITOR_SECTORS c = some sec) :
    CONFIG_EXTRA_ENV_SETTINGS c = some (envBlock
      [ "board=" ++ spell (expansion c "BOARD") ++ "_" ++ spell (expansion c "INPUT_CLOCK_RATE"),
        "monitor_base=" ++ spell (expansion c "CFG_MONITOR_BASE"),
        "monitor_len=" ++ spell (expansion c "CFG_MONITOR_LEN"),
        "monitor_sec=" ++ sec,
        "load_addr=" ++ spell (expansion c "CFG_LOAD_ADDR"),
        "unprot=protect off $monitor_sec",
        "update=erase $monitor_sec;cp.b $load_addr $monitor_base $monitor_len;protect on $monitor_sec" ]) ∧
    spell (expansion c "CFG_MONITOR_BASE") = spell (expansion c "CFG_FLASH_BASE") ∧
    spell (expansion c "CFG_LOAD_ADDR") = spell (expansion c "CFG_SDRAM_BASE") ∧
    CONFIG_EXTRA_ENV_SETTINGS (shipped false none) = some (envBlock
      [ "board=vip1970_30",
        "monitor_base=0xA0000000",
        "monitor_len=0x00020000",
        "monitor_sec=1:0",
        "load_addr=0x84000000",
        "unprot=protect off $monitor_sec",
        "update=erase $monitor_sec;cp.b $load_addr $monitor_base $monitor_len;protect on $monitor_sec" ]) := by
  obtain ⟨s1, s2, s3, s4, s5, s6, s7⟩ := spell_expansions c
  refine ⟨?_, ?_, ?_, ?_⟩
  · rw [env_string c sec (sectors_of_value c sec h), s1, s2, s4, s5, s7]
    apply congrArg
    apply String.ext
    simp [envBlock, NUL, String.data_append]
  · rw [s3, s4]
  · rw [s6, s7]
  · rw [env_string (shipped false none) "1:0" (by rw [shipped_monitor_len]; rfl)]
    apply congrArg
    apply String.ext
    simp [envBlock, NUL, String.data_append, shipped]

/-- C8 at the header as shipped. -/
theorem C8_default_environment_witness :
    MONITOR_SECTORS (shipped false none) = some "1:0" ∧
    spell (expansion (shipped false none) "CFG_LOAD_ADDR")
      = spell (expansion (shipped false none) "CFG_SDRAM_BASE") :=
  have h : MONITOR_SECTORS (shipped false none) = some "1:0" := by
    rw [value_MONITOR_SECTORS, shipped_monitor_len]
    simp [sectorsDef, strVal]
  ⟨h, (C8_default_environment (shipped false none) "1:0" h).2.2.1⟩

/-- C9 fails on the header as shipped: with the partitions of `MTDPARTS_NOR` laid out one
after the other (U-Boot at 0 for 256 KiB, Environment at `0x40000` for 128 KiB), the
environment region `[CFG_ENV_OFFSET, CFG_ENV_OFFSET + CFG_ENV_SIZE)` is
`[0x20000, 0x30000)`: it lies inside the partition "U-Boot", not inside "Environment".
The monitor region `[0, CFG_MONITOR_LEN)` does lie inside "U-Boot".  With the other
supported monitor length, `0x00040000`, the environment region lies inside
"Environment". -/
theorem C9_environment_outside_its_partition (se : Bool) (clk : Option String) :
    (MTDPARTS_NOR (shipped se clk)).bind parseMtdparts = some ("physmap-flash",
      [ { size := some 0x40000, name := "U-Boot" },
        { size := some 0x20000, name := "Environment" },
        { size := some 0x400000, name := "Kernel" },
        { size := none, name := "RestOfNor0" } ]) ∧
    layout 0
      [ { size := some 0x40000, name := "U-Boot" },
        { size := some 0x20000, name := "Environment" },
        { size := some 0x400000, name := "Kernel" },
        { size := none, name := "RestOfNor0" } ]
      = [ ("U-Boot", 0, some 0x40000), ("Environment", 0x40000, some 0x20000),
          ("Kernel", 0x60000, some 0x400000), ("RestOfNor0", 0x460000, none) ] ∧
    CFG_MONITOR_LEN (shipped se clk) = some 0x20000 ∧
    CFG_ENV_OFFSET (shipped se clk) = some 0x20000 ∧
    CFG_ENV_SIZE (shipped se clk) = some 0x10000 ∧
    insidePartition
      [ { size := some 0x40000, name := "U-Boot" },
        { size := some 0x20000, name := "Environment" },
        { size := some 0x400000, name := "Kernel" },
        { size := none, name := "RestOfNor0" } ] "Environment" 0x20000 0x10000 = false ∧
    insidePartition
      [ { size := some 0x40000, name := "U-Boot" },
        { size := some 0x20000, name := "Environment" },
        { size := some 0x400000, name := "Kernel" },
        { size := none, name := "RestOfNor0" } ] "U-Boot" 0x20000 0x10000 = true ∧
    insidePartition
      [ { size := some 0x40000, name := "U-Boot" },
        { size := some 0x20000, name := "Environment" },
        { size := some 0x400000, name := "Kernel" },
        { size := none, name := "RestOfNor0" } ] "U-Boot" 0 0x20000 = true ∧
    CFG_ENV_OFFSET { shipped se clk with monitor_len := "0x00040000" } = some 0x40000 ∧
    insidePartition
      [ { size := some 0x40000, name := "U-Boot" },
        { size := some 0x20000, name := "Environment" },
        { size := some 0x400000, name := "Kernel" },
        { size := none, name := "RestOfNor0" } ] "Environment" 0x40000 0x10000 = true := by
  refine ⟨?_, by decide, ?_, ?_, value_CFG_ENV_SIZE _, by decide, by decide, by decide, ?_,
    by decide⟩
  · rw [value_MTDPARTS_NOR]
    decide
  · exact (value_CFG_MONITOR_LEN _ 0x20000 _ (shipped_monitor_len se clk) litType_20000).1
  · exact (value_CFG_MONITOR_LEN _ 0x20000 _ (shipped_monitor_len se clk) litType_20000).2
  · exact (value_CFG_MONITOR_LEN _ 0x40000 _ numVal_40000 litType_40000).2

/-- C10: for each supported monitor length `L` (the other constants of the configuration
being integer constants), the variable `update` of `CONFIG_EXTRA_ENV_SETTINGS` runs
`erase`, `cp.b` and `protect on`, the first and the last on the value of `monitor_sec`,
which is `MONITOR_SECTORS` ("1:0" for `0x00020000`, "1:0-1" for `0x00040000`): what
`update` erases and protects is the sectors `0 .. L / 0x20000 - 1` of bank 1.  At
`CFG_ENV_SECT_SIZE` (`0x20000`) bytes a sector counted from the flash base these hold
exactly the bytes `[0, L)`: their number times the sector size is `L`.  The environment
starts at the sector boundary `CFG_ENV_OFFSET = L`, is no longer than a sector, and none
of its bytes is in a sector that `update` erases or protects. -/
theorem C10_update_spares_environment (c : Config) (L B R : Nat)
    (hL : numVal c.monitor_len = some L) (hs : L = 0x00020000 ∨ L = 0x00040000)
    (hB : numVal c.flash_base = some B) (hR : numVal (c.clock.getD "30") = some R) :
    (L = 0x00020000 → MONITOR_SECTORS c = some "1:0") ∧
    (L = 0x00040000 → MONITOR_SECTORS c = some "1:0-1") ∧
    (MONITOR_SECTORS c).bind parseSectors = some (1, List.range (L / 0x20000)) ∧
    (CONFIG_EXTRA_ENV_SETTINGS c).bind (fun env => getenv env "monitor_sec")
      = MONITOR_SECTORS c ∧
    updateCommands c = (MONITOR_SECTORS c).map (fun sec =>
      [ ["erase", sec],
        ["cp.b", if c.se_mode then "0x80000000" else "0x84000000", c.flash_base,
          c.monitor_len],
        ["protect", "on", sec] ]) ∧
    updateErases c = ((MONITOR_SECTORS c).bind parseSectors).map (fun r => [r]) ∧
    updateProtects c = ((MONITOR_SECTORS c).bind parseSectors).map (fun r => [r]) ∧
    updateErases c = some [(1, List.range (L / 0x20000))] ∧
    updateProtects c = some [(1, List.range (L / 0x20000))] ∧
    CFG_ENV_SECT_SIZE c = some 0x20000 ∧ CFG_ENV_OFFSET c = some L ∧
    CFG_ENV_SIZE c = some 0x10000 ∧
    (List.range (L / 0x20000)).length * 0x20000 = L ∧
    (∀ a : Nat, a / 0x20000 ∈ List.range (L / 0x20000) ↔ a < L) ∧
    L % 0x20000 = 0 ∧ 0x10000 ≤ 0x20000 ∧
    L / 0x20000 ∉ List.range (L / 0x20000) ∧
    (∀ a : Nat, L ≤ a → a < L + 0x10000 → a / 0x20000 ∉ List.range (L / 0x20000)) ∧
    (∀ a : Nat, L ≤ a → a < L + 0x10000 → ∀ rs, updateErases c = some rs →
      ∀ r ∈ rs, a / 0x20000 ∉ r.2) ∧
    (∀ a : Nat, L ≤ a → a < L + 0x10000 → ∀ rs, updateProtects c = some rs →
      ∀ r ∈ rs, a / 0x20000 ∉ r.2) := by
  have hoff : CFG_ENV_OFFSET c = some (L : Int) := by
    obtain ⟨t, ht, -⟩ := litType_small _ L hL (by rcases hs with h | h <;> subst h <;> decide)
    exact (value_CFG_MONITOR_LEN c L t hL ht).2
  have hsec : (L = 0x00020000 → MONITOR_SECTORS c = some "1:0") ∧
      (L = 0x00040000 → MONITOR_SECTORS c = some "1:0-1") := by
    constructor <;> intro h <;> subst h <;> rw [value_MONITOR_SECTORS, hL] <;>
      simp [sectorsDef, strVal]
  have key : ∃ sec, MONITOR_SECTORS c = some sec ∧
      parseSectors sec = some (1, List.range (L / 0x20000)) ∧
      sectorsDef (numVal c.monitor_len) = some (.obj (.str sec)) ∧ '\x00' ∉ sec.data := by
    rcases hs with h | h
    · refine ⟨"1:0", hsec.1 h, ?_, ?_, by decide⟩
      · rw [h]; decide
      · rw [hL, h]; rfl
    · refine ⟨"1:0-1", hsec.2 h, ?_, ?_, by decide⟩
      · rw [h]; decide
      · rw [hL, h]; rfl
  obtain ⟨sec, hm, hp, hd, hn⟩ := key
  have hcmd := update_commands c sec B R L hd hn hL hB hR
  have hvar : (CONFIG_EXTRA_ENV_SETTINGS c).bind (fun env => getenv env "monitor_sec")
      = some sec := by
    rw [env_string c sec hd]
    show getenv _ "monitor_sec" = _
    rw [getenv, entries_of_block _ _ _ _ _ (numVal_chars _ R hR) (numVal_chars _ B hB)
      (numVal_chars _ L hL) hn (by cases c.se_mode <;> decide)]
    rfl
  have he : updateErases c = some [(1, List.range (L / 0x20000))] := by
    unfold updateErases
    rw [hcmd]
    simp [erases, hp]
  have hpr : updateProtects c = some [(1, List.range (L / 0x20000))] := by
    unfold updateProtects
    rw [hcmd]
    simp [protects, hp]
  have hout : ∀ a : Nat, L ≤ a → a < L + 0x10000 → a / 0x20000 ∉ List.range (L / 0x20000) := by
    intro a h1 h2
    rw [List.mem_range]
    omega
  refine ⟨hsec.1, hsec.2, ?_, ?_, ?_, ?_, ?_, he, hpr, value_CFG_ENV_SECT_SIZE c, hoff,
    value_CFG_ENV_SIZE c, ?_, ?_, ?_, by decide, ?_, hout, ?_, ?_⟩
  · rw [hm]
    exact hp
  · rw [hvar, hm]
  · rw [hcmd, hm]
    rfl
  · rw [he, hm]
    simp [hp]
  · rw [hpr, hm]
    simp [hp]
  · rw [List.length_range]
    omega
  · intro a
    rw [List.mem_range]
    omega
  · omega
  · rw [List.mem_range]
    omega
  · intro a h1 h2 rs hrs r hr
    rw [he] at hrs
    cases hrs
    simp at hr
    subst hr
    exact hout a h1 h2
  · intro a h1 h2 rs hrs r hr
    rw [hpr] at hrs
    cases hrs
    simp at hr
    subst hr
    exact hout a h1 h2

/-- C10 at the header as shipped. -/
theorem C10_update_spares_environment_witness :
    numVal (shipped false none).monitor_len = some 0x00020000 ∧
    (0x00020000 = 0x00020000 ∨ 0x00020000 = 0x00040000) ∧
    numVal (shipped false none).flash_base = some 0xA0000000 ∧
    numVal ((shipped false none).clock.getD "30") = some 30 ∧
    updateErases (shipped false none) = some [(1, List.range (0x00020000 / 0x20000))] :=
  ⟨by decide, Or.inl rfl, by decide, by decide,
    (C10_update_spares_environment (shipped false none) 0x00020000 0xA0000000 30 (by decide)
      (Or.inl rfl) (by decide) (by decide)).2.2.2.2.2.2.2.1⟩

end Vip1970
